import Mathlib

set_option maxRecDepth 100000

/-!
# Sigma-6 Polyphonic Synthesizer — voice-module engine, shallow embedding

A verification development for the per-voice synthesis engine and MIDI
parser of the Sigma-6 poly-voice firmware (files `Sigma_6_Poly_voice.ino`,
`m0_synth_engine.ino`, `m0_synth_def.h`).

Modelling conventions:
* The C type `fixed_t` (signed 32-bit, 12:20 fixed point) is modelled as `Int`.
  Left shifts of non-negative values are written as multiplications by powers
  of two; C signed division (truncation toward zero) is `Int.tdiv`.
* Machine counters (`uint32_t` millisecond timers) are modelled as `Nat`;
  in every trace considered here they stay far below `2^32`, so wrap-around
  cannot occur and is not modelled.
* The `float` note-frequency and frequency-multiplier tables are modelled as
  exact rationals (`ℚ`); every comparison against the 12000 Hz oscillator
  ceiling decided below has a margin that is orders of magnitude larger than
  single-precision rounding error.
* Division by zero follows the Lean convention `x / 0 = 0` (matching the
  ARM EABI integer-division helper on the target MCU, which returns 0).
-/

/-- Fixed-point 12:20 constant 1.0 — `IntToFixedPt(1)` = `1 << 20`. -/
def fixedOne : Int := 1048576

/-- `FIXED_MAX_LEVEL` = `IntToFixedPt(1) - 1` (full-scale 0.99999). -/
def FIXED_MAX_LEVEL : Int := fixedOne - 1

/-- `FIXED_MIN_LEVEL` = 1 (minimum non-zero signal level). -/
def FIXED_MIN_LEVEL : Int := 1

/-- `WAVE_TABLE_SIZE` (number of samples in the shared sine table). -/
def WAVE_TABLE_SIZE : Nat := 2048

/-- `SAMPLE_RATE_HZ`. -/
def SAMPLE_RATE_HZ : Nat := 32000

/-- `MAX_OSC_FREQ_HZ` (must be < 0.4 x SAMPLE_RATE_HZ per the header). -/
def MAX_OSC_FREQ_HZ : Nat := 12000

/-- Lookup table `g_base2exp[]` from `m0_synth_engine.ino`: 1025 entries in
18:14 fixed-point, transforming a linear index 0..1024 (= -1.0..+1.0) into
2^x in 0.5..2.0. -/
def g_base2exp : List Nat :=
[
  8192, 8203, 8214, 8225, 8236, 8247, 8258, 8270, 8281, 8292, 8303, 8314, 8326, 8337, 8348, 8360,
  8371, 8382, 8394, 8405, 8416, 8428, 8439, 8451, 8462, 8474, 8485, 8496, 8508, 8520, 8531, 8543,
  8554, 8566, 8577, 8589, 8601, 8612, 8624, 8636, 8647, 8659, 8671, 8683, 8694, 8706, 8718, 8730,
  8742, 8753, 8765, 8777, 8789, 8801, 8813, 8825, 8837, 8849, 8861, 8873, 8885, 8897, 8909, 8921,
  8933, 8945, 8957, 8969, 8981, 8994, 9006, 9018, 9030, 9042, 9055, 9067, 9079, 9092, 9104, 9116,
  9129, 9141, 9153, 9166, 9178, 9191, 9203, 9215, 9228, 9240, 9253, 9266, 9278, 9291, 9303, 9316,
  9328, 9341, 9354, 9366, 9379, 9392, 9405, 9417, 9430, 9443, 9456, 9468, 9481, 9494, 9507, 9520,
  9533, 9546, 9559, 9572, 9584, 9597, 9610, 9624, 9637, 9650, 9663, 9676, 9689, 9702, 9715, 9728,
  9741, 9755, 9768, 9781, 9794, 9808, 9821, 9834, 9848, 9861, 9874, 9888, 9901, 9914, 9928, 9941,
  9955, 9968, 9982, 9995, 10009, 10022, 10036, 10050, 10063, 10077, 10090, 10104, 10118, 10132, 10145, 10159,
  10173, 10187, 10200, 10214, 10228, 10242, 10256, 10270, 10284, 10298, 10311, 10325, 10339, 10353, 10367, 10382,
  10396, 10410, 10424, 10438, 10452, 10466, 10480, 10495, 10509, 10523, 10537, 10552, 10566, 10580, 10594, 10609,
  10623, 10638, 10652, 10666, 10681, 10695, 10710, 10724, 10739, 10753, 10768, 10783, 10797, 10812, 10826, 10841,
  10856, 10871, 10885, 10900, 10915, 10930, 10944, 10959, 10974, 10989, 11004, 11019, 11034, 11049, 11064, 11079,
  11094, 11109, 11124, 11139, 11154, 11169, 11184, 11199, 11214, 11230, 11245, 11260, 11275, 11291, 11306, 11321,
  11336, 11352, 11367, 11383, 11398, 11413, 11429, 11444, 11460, 11475, 11491, 11507, 11522, 11538, 11553, 11569,
  11585, 11600, 11616, 11632, 11648, 11663, 11679, 11695, 11711, 11727, 11743, 11759, 11774, 11790, 11806, 11822,
  11838, 11854, 11871, 11887, 11903, 11919, 11935, 11951, 11967, 11984, 12000, 12016, 12032, 12049, 12065, 12081,
  12098, 12114, 12130, 12147, 12163, 12180, 12196, 12213, 12229, 12246, 12263, 12279, 12296, 12312, 12329, 12346,
  12363, 12379, 12396, 12413, 12430, 12447, 12463, 12480, 12497, 12514, 12531, 12548, 12565, 12582, 12599, 12616,
  12633, 12650, 12668, 12685, 12702, 12719, 12736, 12754, 12771, 12788, 12805, 12823, 12840, 12858, 12875, 12892,
  12910, 12927, 12945, 12962, 12980, 12998, 13015, 13033, 13051, 13068, 13086, 13104, 13121, 13139, 13157, 13175,
  13193, 13211, 13228, 13246, 13264, 13282, 13300, 13318, 13336, 13354, 13372, 13391, 13409, 13427, 13445, 13463,
  13482, 13500, 13518, 13536, 13555, 13573, 13591, 13610, 13628, 13647, 13665, 13684, 13702, 13721, 13739, 13758,
  13777, 13795, 13814, 13833, 13852, 13870, 13889, 13908, 13927, 13946, 13965, 13983, 14002, 14021, 14040, 14059,
  14078, 14098, 14117, 14136, 14155, 14174, 14193, 14212, 14232, 14251, 14270, 14290, 14309, 14328, 14348, 14367,
  14387, 14406, 14426, 14445, 14465, 14484, 14504, 14524, 14543, 14563, 14583, 14603, 14622, 14642, 14662, 14682,
  14702, 14722, 14742, 14762, 14782, 14802, 14822, 14842, 14862, 14882, 14902, 14922, 14943, 14963, 14983, 15003,
  15024, 15044, 15064, 15085, 15105, 15126, 15146, 15167, 15187, 15208, 15228, 15249, 15270, 15290, 15311, 15332,
  15353, 15373, 15394, 15415, 15436, 15457, 15478, 15499, 15520, 15541, 15562, 15583, 15604, 15625, 15646, 15668,
  15689, 15710, 15731, 15753, 15774, 15795, 15817, 15838, 15860, 15881, 15903, 15924, 15946, 15967, 15989, 16011,
  16032, 16054, 16076, 16098, 16119, 16141, 16163, 16185, 16207, 16229, 16251, 16273, 16295, 16317, 16339, 16361,
  16384, 16406, 16428, 16450, 16472, 16495, 16517, 16540, 16562, 16584, 16607, 16629, 16652, 16674, 16697, 16720,
  16742, 16765, 16788, 16810, 16833, 16856, 16879, 16902, 16925, 16948, 16970, 16993, 17016, 17040, 17063, 17086,
  17109, 17132, 17155, 17179, 17202, 17225, 17248, 17272, 17295, 17319, 17342, 17366, 17389, 17413, 17436, 17460,
  17484, 17507, 17531, 17555, 17578, 17602, 17626, 17650, 17674, 17698, 17722, 17746, 17770, 17794, 17818, 17842,
  17866, 17891, 17915, 17939, 17963, 17988, 18012, 18037, 18061, 18085, 18110, 18134, 18159, 18184, 18208, 18233,
  18258, 18282, 18307, 18332, 18357, 18382, 18407, 18431, 18456, 18481, 18506, 18532, 18557, 18582, 18607, 18632,
  18657, 18683, 18708, 18733, 18759, 18784, 18810, 18835, 18861, 18886, 18912, 18937, 18963, 18989, 19014, 19040,
  19066, 19092, 19118, 19144, 19169, 19195, 19221, 19248, 19274, 19300, 19326, 19352, 19378, 19404, 19431, 19457,
  19483, 19510, 19536, 19563, 19589, 19616, 19642, 19669, 19696, 19722, 19749, 19776, 19803, 19829, 19856, 19883,
  19910, 19937, 19964, 19991, 20018, 20045, 20073, 20100, 20127, 20154, 20181, 20209, 20236, 20264, 20291, 20319,
  20346, 20374, 20401, 20429, 20457, 20484, 20512, 20540, 20568, 20596, 20623, 20651, 20679, 20707, 20735, 20764,
  20792, 20820, 20848, 20876, 20905, 20933, 20961, 20990, 21018, 21047, 21075, 21104, 21132, 21161, 21189, 21218,
  21247, 21276, 21305, 21333, 21362, 21391, 21420, 21449, 21478, 21507, 21537, 21566, 21595, 21624, 21653, 21683,
  21712, 21742, 21771, 21801, 21830, 21860, 21889, 21919, 21949, 21978, 22008, 22038, 22068, 22098, 22128, 22158,
  22188, 22218, 22248, 22278, 22308, 22338, 22369, 22399, 22429, 22460, 22490, 22521, 22551, 22582, 22612, 22643,
  22673, 22704, 22735, 22766, 22797, 22827, 22858, 22889, 22920, 22951, 22983, 23014, 23045, 23076, 23107, 23139,
  23170, 23201, 23233, 23264, 23296, 23327, 23359, 23391, 23422, 23454, 23486, 23518, 23549, 23581, 23613, 23645,
  23677, 23709, 23742, 23774, 23806, 23838, 23870, 23903, 23935, 23968, 24000, 24033, 24065, 24098, 24130, 24163,
  24196, 24229, 24261, 24294, 24327, 24360, 24393, 24426, 24459, 24492, 24526, 24559, 24592, 24625, 24659, 24692,
  24726, 24759, 24793, 24826, 24860, 24894, 24927, 24961, 24995, 25029, 25063, 25097, 25131, 25165, 25199, 25233,
  25267, 25301, 25336, 25370, 25404, 25439, 25473, 25508, 25542, 25577, 25611, 25646, 25681, 25716, 25751, 25785,
  25820, 25855, 25890, 25925, 25961, 25996, 26031, 26066, 26102, 26137, 26172, 26208, 26243, 26279, 26314, 26350,
  26386, 26422, 26457, 26493, 26529, 26565, 26601, 26637, 26673, 26709, 26745, 26782, 26818, 26854, 26891, 26927,
  26964, 27000, 27037, 27073, 27110, 27147, 27183, 27220, 27257, 27294, 27331, 27368, 27405, 27442, 27479, 27517,
  27554, 27591, 27629, 27666, 27704, 27741, 27779, 27816, 27854, 27892, 27930, 27967, 28005, 28043, 28081, 28119,
  28157, 28196, 28234, 28272, 28310, 28349, 28387, 28425, 28464, 28503, 28541, 28580, 28619, 28657, 28696, 28735,
  28774, 28813, 28852, 28891, 28930, 28969, 29009, 29048, 29087, 29127, 29166, 29206, 29245, 29285, 29325, 29364,
  29404, 29444, 29484, 29524, 29564, 29604, 29644, 29684, 29724, 29764, 29805, 29845, 29886, 29926, 29967, 30007,
  30048, 30089, 30129, 30170, 30211, 30252, 30293, 30334, 30375, 30416, 30457, 30499, 30540, 30581, 30623, 30664,
  30706, 30747, 30789, 30831, 30873, 30914, 30956, 30998, 31040, 31082, 31124, 31167, 31209, 31251, 31293, 31336,
  31378, 31421, 31463, 31506, 31549, 31591, 31634, 31677, 31720, 31763, 31806, 31849, 31892, 31935, 31979, 32022,
  32065, 32109, 32152, 32196, 32239, 32283, 32327, 32371, 32415, 32458, 32502, 32546, 32591, 32635, 32679, 32723,
  32768
]

/-- Body of `Base2Exp` after the domain clamp: converts the (already clamped)
fixed-point argument to a 13-bit axis coordinate
`ixval = FractionPart((xval + IntToFixedPt(1)) / 2, 13)`, splits it into a
table index (10 bits) and interpolation remainder (3 bits), and interpolates
linearly between adjacent table entries; `xval == +1.0` is special-cased to
`2 << 14`.  The final `<< 6` rescales 18:14 to 12:20 fixed point. -/
def base2expCore (xval : Int) : Int :=
  let ixval : Nat := (((xval + fixedOne).tdiv 2).toNat &&& 0xFFFFF) >>> 7
  let idx : Nat := ixval >>> 3
  let irem3 : Nat := ixval &&& 7
  let yval : Int :=
    if xval = fixedOne then 2 * 16384
    else
      let y0 : Int := (g_base2exp.getD idx 0 : Nat)
      let ydelta : Int := (((g_base2exp.getD (idx + 1) 0 : Nat) - y0) * (irem3 : Int)).tdiv 8
      y0 + ydelta
  yval * 64

/-- `Base2Exp` from `m0_synth_engine.ino`: inputs outside [-1.0, +1.0]
(12:20 fixed point) are replaced by 0 before the table lookup. -/
def Base2Exp (xval : Int) : Int :=
  base2expCore (if xval < -fixedOne ∨ xval > fixedOne then 0 else xval)

/-- Note-frequency lookup table `g_NoteFrequency[]`: chromatic scale from C0
(MIDI note 12) to C9 (120); table index = MIDI note - 12, range 0..108.
The C `float` literals (at most 4 decimal places) are modelled exactly,
scaled by 10^4 (unit: 10^-4 Hz). -/
def g_NoteFrequency_x1e4 : List Nat :=
[
  163516, 173239, 183540, 194455, 206017, 218268, 231247, 244997,
  259566, 275000, 291353, 308677, 327032, 346478, 367081, 388909,
  412034, 436535, 462493, 489994, 519131, 550000, 582705, 617354,
  654064, 692957, 734162, 777817, 824069, 873071, 924986, 979989,
  1038260, 1100000, 1165410, 1234710, 1308130, 1385910, 1468320, 1555630,
  1648140, 1746140, 1849970, 1959980, 2076520, 2200000, 2330820, 2469420,
  2616260, 2771830, 2936650, 3111270, 3296280, 3492280, 3699940, 3919950,
  4153050, 4400000, 4661640, 4938830, 5232510, 5543650, 5873300, 6222540,
  6592550, 6984560, 7399890, 7839910, 8306090, 8800000, 9323280, 9877670,
  10465000, 11087300, 11746600, 12445100, 13185100, 13969100, 14799800, 15679800,
  16612200, 17600000, 18646600, 19755300, 20930000, 22174600, 23493200, 24890200,
  26370200, 27938300, 29599600, 31359600, 33224400, 35200000, 37293100, 39510700,
  41860100, 44349200, 46986400, 49780400, 52740400, 55876600, 59199200, 62719200,
  66448800, 70400000, 74586200, 79021400, 83720200
]

/-- `g_FreqMultConst[]`: the 12 fixed oscillator frequency-multiplier values
(C `float` literals 0.5, 1.0, 1.333333, 1.5, 2 .. 9, modelled exactly,
scaled by 10^6). -/
def g_FreqMultConst_x1e6 : List Nat :=
  [500000, 1000000, 1333333, 1500000, 2000000, 3000000, 4000000, 5000000,
   6000000, 7000000, 8000000, 9000000]

/-- `g_AmpldLevelLogScale_x1000[]`: 0 plus 16 fixed levels on a 3 dB log
scale, unit 1/1000. -/
def g_AmpldLevelLogScale_x1000 : List Nat :=
  [0, 5, 8, 11, 16, 22, 31, 44, 63, 88, 125, 177, 250, 353, 500, 707, 1000]

/-- Active-patch parameter record `PatchParamTable_t` from `m0_synth_def.h`.
`uint16_t` fields are `Nat`; the signed `short` detune array is `Int`. -/
structure Patch where
  PresetName : String
  OscFreqMult : List Nat        -- 6 entries, encoded 0..11
  OscAmpldModSource : List Nat  -- 6 entries, encoded 0..9
  OscDetune : List Int          -- 6 entries, cents (range +/-600)
  MixerInputStep : List Nat     -- 6 entries, encoded 0..16
  EnvAttackTime : Nat
  EnvHoldTime : Nat
  EnvDecayTime : Nat
  EnvSustainLevel : Nat
  EnvReleaseTime : Nat
  AmpControlMode : Nat
  ContourStartLevel : Nat
  ContourDelayTime : Nat
  ContourRampTime : Nat
  ContourHoldLevel : Nat
  Env2DecayTime : Nat
  Env2SustainLevel : Nat
  LFO_Freq_x10 : Nat
  LFO_RampTime : Nat
  LFO_FM_Depth : Nat
  LFO_AM_Depth : Nat
  MixerOutGain_x10 : Nat
  LimiterLevelPc : Nat
deriving DecidableEq

/-- Note-number folding performed at the head of `SynthNoteChange` and
`SynthNoteOff` (and hence of `SynthNoteOn`, which calls `SynthNoteChange`):
`noteNum &= 0x7F; if > 120 subtract 12; if < 12 add 12`. -/
def foldNote (noteNum : Nat) : Nat :=
  let n1 := noteNum &&& 0x7F
  let n2 := if n1 > 120 then n1 - 12 else n1
  if n2 < 12 then n2 + 12 else n2

/-- The per-oscillator frequency computed inside `SynthNoteChange`,
`g_NoteFrequency[noteNum-12] * g_FreqMultConst[patch.OscFreqMult[osc]]`,
in units of 10^-10 Hz (exact product of the scaled tables).  Note: the code
applies neither the detune factor nor the frequency-modulation factor in
this computation. -/
def oscFreq_x1e10 (p : Patch) (noteNum : Nat) (osc : Nat) : Nat :=
  (g_NoteFrequency_x1e4.getD (foldNote noteNum - 12) 0) *
    (g_FreqMultConst_x1e6.getD (p.OscFreqMult.getD osc 0) 0)

/-- `MAX_OSC_FREQ_HZ` in units of 10^-10 Hz, for comparison against
`oscFreq_x1e10`. -/
def maxOscFreq_x1e10 : Nat := MAX_OSC_FREQ_HZ * 10 ^ 10

/-- Results of `SynthNoteChange` relevant to the claims: the stored (folded)
note number and the six mute flags.  (The initial phase-step values, a
`float` computation whose rounding no claim depends on, are treated
parametrically in the phase-accumulator development below.) -/
structure NoteChangeResult where
  notePlaying : Nat
  oscMuted : List Bool
deriving DecidableEq

/-- `SynthNoteChange` from `m0_synth_engine.ino`: folds the note number and,
for each of the six oscillators, computes the oscillator frequency and sets
the mute flag iff it exceeds `MAX_OSC_FREQ_HZ`. -/
def SynthNoteChange (p : Patch) (noteNum : Nat) : NoteChangeResult :=
  { notePlaying := foldNote noteNum
    oscMuted := (List.range 6).map fun osc =>
      decide (oscFreq_x1e10 p noteNum osc > maxOscFreq_x1e10) }

/-- Mixer-level refresh from `OscAmpldModulation` (run on the 5 ms tick):
for each oscillator, a set mute flag forces the mixer input level to zero,
otherwise the patch mixer step (0..16) is mapped through the log table. -/
def mixerLevelRefresh (p : Patch) (oscMuted : List Bool) : List Nat :=
  (List.range 6).map fun osc =>
    if oscMuted.getD osc false then 0
    else g_AmpldLevelLogScale_x1000.getD (p.MixerInputStep.getD osc 0) 0

/-- The oscillator's resulting frequency in the claim/spec sense (§4.2):
note frequency x frequency multiplier x detune factor x modulation factor,
where the detune factor is the `Base2Exp`-based multiplier the engine
applies in `OscFreqModulation` (`Base2Exp(IntToFixedPt(1)*cents/1200)`,
fine-tuning 0) and the modulation factor is 1.0 (vibrato and pitch bend
disabled).  Units: 10^-10 Hz x 2^-20 (the scaled frequency times the Q12.20
detune multiplier). -/
def specResultingFreq_x1e10fx (p : Patch) (noteNum : Nat) (osc : Nat) : Int :=
  (oscFreq_x1e10 p noteNum osc : Int) *
    Base2Exp ((fixedOne * p.OscDetune.getD osc 0).tdiv 1200)

/-- `MAX_OSC_FREQ_HZ` in the units of `specResultingFreq_x1e10fx`. -/
def maxOscFreq_x1e10fx : Int := (maxOscFreq_x1e10 : Int) * fixedOne

/-- A patch exercising maximum positive detune on oscillator 0: frequency
multiplier index 2 (x 1.333333) and detune +600 cents. -/
def detunedTestPatch : Patch :=
  { PresetName := "Detune Test"
    OscFreqMult := [2, 1, 1, 1, 1, 1]
    OscAmpldModSource := [0, 0, 0, 0, 0, 0]
    OscDetune := [600, 0, 0, 0, 0, 0]
    MixerInputStep := [16, 0, 0, 0, 0, 0]
    EnvAttackTime := 5, EnvHoldTime := 0, EnvDecayTime := 200
    EnvSustainLevel := 80, EnvReleaseTime := 200, AmpControlMode := 2
    ContourStartLevel := 5, ContourDelayTime := 20, ContourRampTime := 500
    ContourHoldLevel := 95, Env2DecayTime := 500, Env2SustainLevel := 50
    LFO_Freq_x10 := 50, LFO_RampTime := 500, LFO_FM_Depth := 20
    LFO_AM_Depth := 20, MixerOutGain_x10 := 10, LimiterLevelPc := 0 }

/-- Envelope generator segments (`enum Envelope_Gen_Phases` in
`m0_synth_def.h`). -/
inductive EnvSeg where
  | idle
  | attack
  | peakHold
  | decay
  | sustain
  | release
deriving DecidableEq

/-- State of the amplitude envelope generator ENV1: the `static` locals of
`AmpldEnvelopeGenerator`, its output `m_ENV1_Output`, and the two trigger
flags `m_TriggerAttack1` / `m_TriggerRelease1`.  The `uint32_t` millisecond
timer is a `Nat`; `fixed_t` quantities are `Int`. -/
structure Env1State where
  seg : EnvSeg
  phaseTimer : Nat
  sustainLevel : Int
  timeConstant : Int
  ampldDelta : Int
  ampldMaximum : Int
  out : Int
  trigAttack : Bool
  trigRelease : Bool
deriving DecidableEq

/-- Sustain level computed by the attack-trigger handler:
`IntToFixedPt(EnvSustainLevel) / 100`. -/
def sustainLevelFx (p : Patch) : Int :=
  (fixedOne * (p.EnvSustainLevel : Int)).tdiv 100

/-- Peak amplitude computed by the attack-trigger handler:
`FIXED_MAX_LEVEL`, or the sustain level when `EnvHoldTime == 0` (no
peak-hold phase). -/
def ampldMaximumFx (p : Patch) : Int :=
  if p.EnvHoldTime = 0 then sustainLevelFx p else FIXED_MAX_LEVEL

/-- Attack step change per 1 ms: `ampldMaximum / EnvAttackTime`. -/
def attackDeltaFx (p : Patch) : Int :=
  (ampldMaximumFx p).tdiv (p.EnvAttackTime : Int)

/-- One 1 ms invocation of `AmpldEnvelopeGenerator` from
`m0_synth_engine.ino`: trigger handlers first (an attack trigger also
clears a pending release trigger), then the segment switch.  C signed
division is `Int.tdiv`; the division of the `uint16` time fields by 5 is
C unsigned division (`Nat` division). -/
def AmpldEnvelopeGenerator (p : Patch) (s0 : Env1State) : Env1State :=
  let s1 :=
    if s0.trigAttack then
      { s0 with trigAttack := false, trigRelease := false, phaseTimer := 0,
                sustainLevel := sustainLevelFx p,
                ampldMaximum := ampldMaximumFx p,
                ampldDelta := attackDeltaFx p,
                seg := EnvSeg.attack }
    else s0
  let s2 :=
    if s1.trigRelease then
      { s1 with trigRelease := false,
                timeConstant := ((p.EnvReleaseTime / 5 : Nat) : Int),
                phaseTimer := 0, seg := EnvSeg.release }
    else s1
  match s2.seg with
  | EnvSeg.idle => { s2 with out := 0 }
  | EnvSeg.attack =>
      let out1 := if s2.out < s2.ampldMaximum then s2.out + s2.ampldDelta else s2.out
      let t := s2.phaseTimer + 1
      if t ≥ p.EnvAttackTime then
        { s2 with out := s2.ampldMaximum, phaseTimer := 0,
                  seg := if p.EnvHoldTime = 0 then EnvSeg.sustain else EnvSeg.peakHold }
      else { s2 with out := out1, phaseTimer := t }
  | EnvSeg.peakHold =>
      let t := s2.phaseTimer + 1
      if t ≥ p.EnvHoldTime then
        { s2 with timeConstant := ((p.EnvDecayTime / 5 : Nat) : Int),
                  phaseTimer := 0, seg := EnvSeg.decay }
      else { s2 with phaseTimer := t }
  | EnvSeg.decay =>
      let d0 := (s2.out - s2.sustainLevel).tdiv s2.timeConstant
      let d := if d0 = 0 then FIXED_MIN_LEVEL else d0
      let out1 := if s2.out ≥ s2.sustainLevel + d then s2.out - d else s2.out
      let t := s2.phaseTimer + 1
      { s2 with ampldDelta := d, out := out1, phaseTimer := t,
                seg := if t ≥ p.EnvDecayTime * 2 then EnvSeg.sustain else EnvSeg.decay }
  | EnvSeg.sustain => s2
  | EnvSeg.release =>
      let d0 := s2.out.tdiv s2.timeConstant
      let d := if d0 = 0 then FIXED_MIN_LEVEL else d0
      let out1 := if s2.out ≥ d then s2.out - d else s2.out
      let t := s2.phaseTimer + 1
      { s2 with ampldDelta := d, out := out1, phaseTimer := t,
                seg := if t ≥ p.EnvReleaseTime * 2 then EnvSeg.idle else EnvSeg.release }

/-- The generator's state at power-up: segment IDLE, zero output, all
static locals and triggers cleared. -/
def env1InitState : Env1State :=
  { seg := EnvSeg.idle, phaseTimer := 0, sustainLevel := 0, timeConstant := 0,
    ampldDelta := 0, ampldMaximum := 0, out := 0,
    trigAttack := false, trigRelease := false }

/-- Trace of the generator after a note-on: state 0 is the idle power-up
state with the attack trigger raised; state `k+1` is state `k` stepped by
one 1 ms invocation.  No release trigger is ever raised. -/
def env1AttackTrace (p : Patch) : Nat → Env1State
  | 0 => { env1InitState with trigAttack := true }
  | n + 1 => AmpldEnvelopeGenerator p (env1AttackTrace p n)

/-- Trace of a note-on followed immediately by a note-off: state 0 is the
idle power-up state with the attack trigger raised; the release trigger is
raised after the first invocation (the earliest instant at which a release
can take effect, the attack handler clearing any release pending at the
same tick); each later state is one more 1 ms invocation. -/
def env1NoteOnOffTrace (p : Patch) : Nat → Env1State
  | 0 => { env1InitState with trigAttack := true }
  | 1 => AmpldEnvelopeGenerator p (env1NoteOnOffTrace p 0)
  | 2 => AmpldEnvelopeGenerator p
           { env1NoteOnOffTrace p 1 with trigRelease := true }
  | n + 3 => AmpldEnvelopeGenerator p (env1NoteOnOffTrace p (n + 2))

/-- One sample-rate phase-accumulator update for one oscillator, from the
audio ISR `TC3_Handler`: add the step, then wrap once at the table length
`WAVE_TABLE_SIZE << 16` (16:16 fixed point, a 32-bit `long`; the values
stay far below `2^31` under the stated bounds). -/
def oscPhaseUpdate (step angle : Int) : Int :=
  if angle + step ≥ (WAVE_TABLE_SIZE : Int) * 65536 then
    angle + step - (WAVE_TABLE_SIZE : Int) * 65536
  else angle + step

/-- `n` consecutive sample-rate phase updates with a fixed step. -/
def oscPhaseIter (step : Int) : Nat → Int → Int
  | 0, angle => angle
  | n + 1, angle => oscPhaseIter step n (oscPhaseUpdate step angle)

/-- Engine state touched by `SynthNoteOff` / `SynthTriggerRelease`: the
release triggers of both envelope generators, the contour reset trigger,
the note-on flag, and the stored note number `m_NotePlaying`. -/
structure NoteGateState where
  trigRelease1 : Bool
  trigRelease2 : Bool
  trigReset : Bool
  noteOn : Bool
  notePlaying : Nat
deriving DecidableEq

/-- `SynthTriggerRelease` from `m0_synth_engine.ino`: raises the release
triggers of ENV1 and ENV2 and the contour reset trigger, and clears the
note-on flag. -/
def SynthTriggerRelease (s : NoteGateState) : NoteGateState :=
  { s with trigRelease1 := true, trigRelease2 := true, trigReset := true,
           noteOn := false }

/-- `SynthNoteOff` from `m0_synth_engine.ino`: folds the note number and
calls `SynthTriggerRelease` only if it matches the playing note. -/
def SynthNoteOff (noteNum : Nat) (s : NoteGateState) : NoteGateState :=
  if foldNote noteNum = s.notePlaying then SynthTriggerRelease s else s

/-- The preset patch catalog `g_PresetPatch[]` from
`Sigma_6_Poly_voice.ino` (all 32 preset records, in flash order). -/
def g_PresetPatch : List Patch :=
[
  { PresetName := "Sound Test"
    OscFreqMult := [1, 4, 5, 6, 7, 8]
    OscAmpldModSource := [0, 0, 0, 0, 0, 0]
    OscDetune := [0, 0, 0, 0, 0, 0]
    MixerInputStep := [15, 13, 11, 0, 0, 0]
    EnvAttackTime := 5, EnvHoldTime := 0, EnvDecayTime := 200
    EnvSustainLevel := 80, EnvReleaseTime := 200, AmpControlMode := 2
    ContourStartLevel := 5, ContourDelayTime := 20, ContourRampTime := 500
    ContourHoldLevel := 95, Env2DecayTime := 500, Env2SustainLevel := 50
    LFO_Freq_x10 := 50, LFO_RampTime := 500, LFO_FM_Depth := 20
    LFO_AM_Depth := 20, MixerOutGain_x10 := 10, LimiterLevelPc := 0 },
  { PresetName := "Electric Piano #1"
    OscFreqMult := [1, 3, 5, 7, 9, 11]
    OscAmpldModSource := [0, 0, 0, 0, 0, 0]
    OscDetune := [0, 0, 0, 0, 0, 0]
    MixerInputStep := [14, 12, 8, 8, 5, 0]
    EnvAttackTime := 10, EnvHoldTime := 70, EnvDecayTime := 1500
    EnvSustainLevel := 0, EnvReleaseTime := 500, AmpControlMode := 2
    ContourStartLevel := 5, ContourDelayTime := 20, ContourRampTime := 1000
    ContourHoldLevel := 95, Env2DecayTime := 200, Env2SustainLevel := 16
    LFO_Freq_x10 := 30, LFO_RampTime := 500, LFO_FM_Depth := 0
    LFO_AM_Depth := 20, MixerOutGain_x10 := 33, LimiterLevelPc := 60 },
  { PresetName := "Electric Piano #2"
    OscFreqMult := [1, 4, 5, 6, 7, 8]
    OscAmpldModSource := [0, 3, 3, 3, 0, 0]
    OscDetune := [0, 0, 0, 0, 0, 0]
    MixerInputStep := [14, 12, 13, 9, 9, 6]
    EnvAttackTime := 10, EnvHoldTime := 50, EnvDecayTime := 1500
    EnvSustainLevel := 0, EnvReleaseTime := 300, AmpControlMode := 2
    ContourStartLevel := 5, ContourDelayTime := 20, ContourRampTime := 1000
    ContourHoldLevel := 95, Env2DecayTime := 700, Env2SustainLevel := 50
    LFO_Freq_x10 := 30, LFO_RampTime := 500, LFO_FM_Depth := 0
    LFO_AM_Depth := 20, MixerOutGain_x10 := 20, LimiterLevelPc := 50 },
  { PresetName := "Trashy Toy Piano"
    OscFreqMult := [1, 1, 1, 4, 6, 7]
    OscAmpldModSource := [0, 0, 0, 0, 3, 3]
    OscDetune := [-18, 0, 19, -14, 0, 16]
    MixerInputStep := [13, 13, 13, 11, 9, 7]
    EnvAttackTime := 5, EnvHoldTime := 50, EnvDecayTime := 500
    EnvSustainLevel := 0, EnvReleaseTime := 300, AmpControlMode := 2
    ContourStartLevel := 5, ContourDelayTime := 20, ContourRampTime := 1000
    ContourHoldLevel := 95, Env2DecayTime := 200, Env2SustainLevel := 50
    LFO_Freq_x10 := 30, LFO_RampTime := 500, LFO_FM_Depth := 30
    LFO_AM_Depth := 20, MixerOutGain_x10 := 7, LimiterLevelPc := 0 },
  { PresetName := "Steel-tine Clavier"
    OscFreqMult := [1, 4, 5, 8, 9, 10]
    OscAmpldModSource := [0, 2, 1, 2, 7, 1]
    OscDetune := [0, -21, 19, -27, -31, 0]
    MixerInputStep := [12, 12, 12, 10, 12, 12]
    EnvAttackTime := 5, EnvHoldTime := 20, EnvDecayTime := 700
    EnvSustainLevel := 0, EnvReleaseTime := 700, AmpControlMode := 2
    ContourStartLevel := 5, ContourDelayTime := 50, ContourRampTime := 800
    ContourHoldLevel := 80, Env2DecayTime := 500, Env2SustainLevel := 50
    LFO_Freq_x10 := 100, LFO_RampTime := 500, LFO_FM_Depth := 0
    LFO_AM_Depth := 55, MixerOutGain_x10 := 10, LimiterLevelPc := 0 },
  { PresetName := "Tubular Bells"
    OscFreqMult := [1, 6, 9, 8, 0, 11]
    OscAmpldModSource := [0, 0, 7, 0, 0, 0]
    OscDetune := [0, 33, -35, 0, 0, 0]
    MixerInputStep := [9, 13, 13, 0, 0, 0]
    EnvAttackTime := 5, EnvHoldTime := 100, EnvDecayTime := 2000
    EnvSustainLevel := 0, EnvReleaseTime := 2000, AmpControlMode := 2
    ContourStartLevel := 5, ContourDelayTime := 20, ContourRampTime := 500
    ContourHoldLevel := 95, Env2DecayTime := 500, Env2SustainLevel := 50
    LFO_Freq_x10 := 30, LFO_RampTime := 500, LFO_FM_Depth := 10
    LFO_AM_Depth := 20, MixerOutGain_x10 := 10, LimiterLevelPc := 0 },
  { PresetName := "Smart Vibraphone"
    OscFreqMult := [0, 1, 4, 6, 7, 11]
    OscAmpldModSource := [7, 7, 0, 7, 0, 3]
    OscDetune := [0, 0, 0, 0, 0, 0]
    MixerInputStep := [0, 13, 0, 9, 0, 13]
    EnvAttackTime := 5, EnvHoldTime := 50, EnvDecayTime := 2000
    EnvSustainLevel := 0, EnvReleaseTime := 2000, AmpControlMode := 2
    ContourStartLevel := 0, ContourDelayTime := 0, ContourRampTime := 200
    ContourHoldLevel := 100, Env2DecayTime := 500, Env2SustainLevel := 35
    LFO_Freq_x10 := 80, LFO_RampTime := 5, LFO_FM_Depth := 0
    LFO_AM_Depth := 40, MixerOutGain_x10 := 10, LimiterLevelPc := 0 },
  { PresetName := "Guitar Synthetique"
    OscFreqMult := [1, 5, 6, 8, 9, 10]
    OscAmpldModSource := [0, 0, 0, 1, 1, 1]
    OscDetune := [0, 0, 0, 0, 0, 0]
    MixerInputStep := [13, 7, 11, 8, 9, 8]
    EnvAttackTime := 5, EnvHoldTime := 200, EnvDecayTime := 2000
    EnvSustainLevel := 4, EnvReleaseTime := 700, AmpControlMode := 2
    ContourStartLevel := 25, ContourDelayTime := 0, ContourRampTime := 500
    ContourHoldLevel := 95, Env2DecayTime := 500, Env2SustainLevel := 50
    LFO_Freq_x10 := 50, LFO_RampTime := 500, LFO_FM_Depth := 20
    LFO_AM_Depth := 20, MixerOutGain_x10 := 20, LimiterLevelPc := 60 },
  { PresetName := "Jazz Organ #1"
    OscFreqMult := [0, 1, 5, 8, 0, 0]
    OscAmpldModSource := [0, 0, 0, 3, 0, 0]
    OscDetune := [0, 0, 0, -3, 4, 0]
    MixerInputStep := [10, 13, 15, 12, 0, 0]
    EnvAttackTime := 10, EnvHoldTime := 0, EnvDecayTime := 400
    EnvSustainLevel := 100, EnvReleaseTime := 300, AmpControlMode := 2
    ContourStartLevel := 5, ContourDelayTime := 20, ContourRampTime := 600
    ContourHoldLevel := 40, Env2DecayTime := 100, Env2SustainLevel := 50
    LFO_Freq_x10 := 70, LFO_RampTime := 500, LFO_FM_Depth := 30
    LFO_AM_Depth := 0, MixerOutGain_x10 := 7, LimiterLevelPc := 0 },
  { PresetName := "Jazz Organ #2"
    OscFreqMult := [0, 1, 4, 5, 8, 0]
    OscAmpldModSource := [0, 0, 0, 0, 3, 0]
    OscDetune := [0, 0, -8, 4, -10, 0]
    MixerInputStep := [11, 14, 7, 14, 11, 0]
    EnvAttackTime := 10, EnvHoldTime := 0, EnvDecayTime := 400
    EnvSustainLevel := 100, EnvReleaseTime := 300, AmpControlMode := 2
    ContourStartLevel := 5, ContourDelayTime := 20, ContourRampTime := 600
    ContourHoldLevel := 40, Env2DecayTime := 200, Env2SustainLevel := 50
    LFO_Freq_x10 := 70, LFO_RampTime := 500, LFO_FM_Depth := 30
    LFO_AM_Depth := 0, MixerOutGain_x10 := 7, LimiterLevelPc := 0 },
  { PresetName := "Rock Organ #3"
    OscFreqMult := [0, 3, 1, 4, 6, 8]
    OscAmpldModSource := [0, 0, 0, 0, 0, 0]
    OscDetune := [0, 0, -6, -7, 0, 0]
    MixerInputStep := [13, 13, 13, 13, 0, 0]
    EnvAttackTime := 10, EnvHoldTime := 0, EnvDecayTime := 400
    EnvSustainLevel := 100, EnvReleaseTime := 300, AmpControlMode := 2
    ContourStartLevel := 5, ContourDelayTime := 20, ContourRampTime := 600
    ContourHoldLevel := 40, Env2DecayTime := 500, Env2SustainLevel := 50
    LFO_Freq_x10 := 70, LFO_RampTime := 500, LFO_FM_Depth := 30
    LFO_AM_Depth := 0, MixerOutGain_x10 := 7, LimiterLevelPc := 0 },
  { PresetName := "Pink Floyd Organ"
    OscFreqMult := [0, 3, 6, 0, 3, 6]
    OscAmpldModSource := [0, 0, 0, 0, 0, 0]
    OscDetune := [6, 5, 4, -6, -5, -4]
    MixerInputStep := [13, 10, 10, 13, 10, 10]
    EnvAttackTime := 30, EnvHoldTime := 0, EnvDecayTime := 200
    EnvSustainLevel := 100, EnvReleaseTime := 200, AmpControlMode := 2
    ContourStartLevel := 5, ContourDelayTime := 20, ContourRampTime := 500
    ContourHoldLevel := 95, Env2DecayTime := 500, Env2SustainLevel := 50
    LFO_Freq_x10 := 50, LFO_RampTime := 500, LFO_FM_Depth := 15
    LFO_AM_Depth := 0, MixerOutGain_x10 := 7, LimiterLevelPc := 0 },
  { PresetName := "Hammondish Organ"
    OscFreqMult := [1, 3, 4, 5, 7, 8]
    OscAmpldModSource := [0, 0, 0, 0, 0, 3]
    OscDetune := [0, -7, 12, 4, 0, 3]
    MixerInputStep := [13, 3, 0, 9, 0, 15]
    EnvAttackTime := 10, EnvHoldTime := 0, EnvDecayTime := 400
    EnvSustainLevel := 100, EnvReleaseTime := 300, AmpControlMode := 2
    ContourStartLevel := 5, ContourDelayTime := 20, ContourRampTime := 600
    ContourHoldLevel := 40, Env2DecayTime := 200, Env2SustainLevel := 25
    LFO_Freq_x10 := 70, LFO_RampTime := 500, LFO_FM_Depth := 20
    LFO_AM_Depth := 0, MixerOutGain_x10 := 7, LimiterLevelPc := 0 },
  { PresetName := "Bauer Organ #1"
    OscFreqMult := [1, 4, 6, 8, 10, 0]
    OscAmpldModSource := [0, 0, 0, 0, 3, 0]
    OscDetune := [0, 4, -4, 3, -2, 3]
    MixerInputStep := [13, 13, 0, 9, 13, 11]
    EnvAttackTime := 20, EnvHoldTime := 20, EnvDecayTime := 400
    EnvSustainLevel := 70, EnvReleaseTime := 300, AmpControlMode := 2
    ContourStartLevel := 5, ContourDelayTime := 20, ContourRampTime := 600
    ContourHoldLevel := 40, Env2DecayTime := 500, Env2SustainLevel := 50
    LFO_Freq_x10 := 70, LFO_RampTime := 500, LFO_FM_Depth := 30
    LFO_AM_Depth := 0, MixerOutGain_x10 := 7, LimiterLevelPc := 0 },
  { PresetName := "Meditation Pipe"
    OscFreqMult := [1, 4, 6, 7, 8, 10]
    OscAmpldModSource := [0, 0, 0, 0, 0, 6]
    OscDetune := [0, -5, 0, 4, 0, 0]
    MixerInputStep := [13, 14, 0, 9, 10, 9]
    EnvAttackTime := 50, EnvHoldTime := 0, EnvDecayTime := 200
    EnvSustainLevel := 80, EnvReleaseTime := 200, AmpControlMode := 2
    ContourStartLevel := 5, ContourDelayTime := 20, ContourRampTime := 600
    ContourHoldLevel := 40, Env2DecayTime := 100, Env2SustainLevel := 50
    LFO_Freq_x10 := 70, LFO_RampTime := 500, LFO_FM_Depth := 30
    LFO_AM_Depth := 0, MixerOutGain_x10 := 7, LimiterLevelPc := 0 },
  { PresetName := "Full Swell Organ"
    OscFreqMult := [0, 1, 4, 5, 6, 7]
    OscAmpldModSource := [0, 0, 0, 0, 0, 0]
    OscDetune := [0, 0, 4, -3, 3, -3]
    MixerInputStep := [8, 14, 13, 11, 10, 7]
    EnvAttackTime := 5, EnvHoldTime := 0, EnvDecayTime := 5
    EnvSustainLevel := 100, EnvReleaseTime := 300, AmpControlMode := 2
    ContourStartLevel := 0, ContourDelayTime := 50, ContourRampTime := 300
    ContourHoldLevel := 100, Env2DecayTime := 500, Env2SustainLevel := 50
    LFO_Freq_x10 := 70, LFO_RampTime := 500, LFO_FM_Depth := 20
    LFO_AM_Depth := 0, MixerOutGain_x10 := 7, LimiterLevelPc := 0 },
  { PresetName := "Morph Harmonium"
    OscFreqMult := [0, 3, 1, 7, 8, 10]
    OscAmpldModSource := [0, 0, 0, 1, 2, 1]
    OscDetune := [3, -3, 0, -3, 3, -3]
    MixerInputStep := [13, 12, 13, 8, 9, 11]
    EnvAttackTime := 30, EnvHoldTime := 0, EnvDecayTime := 10
    EnvSustainLevel := 80, EnvReleaseTime := 500, AmpControlMode := 2
    ContourStartLevel := 10, ContourDelayTime := 50, ContourRampTime := 300
    ContourHoldLevel := 90, Env2DecayTime := 500, Env2SustainLevel := 50
    LFO_Freq_x10 := 70, LFO_RampTime := 500, LFO_FM_Depth := 10
    LFO_AM_Depth := 55, MixerOutGain_x10 := 7, LimiterLevelPc := 0 },
  { PresetName := "Ring Modulator"
    OscFreqMult := [1, 3, 4, 5, 8, 0]
    OscAmpldModSource := [0, 0, 0, 0, 0, 0]
    OscDetune := [0, 0, 0, 0, 0, 0]
    MixerInputStep := [0, 11, 14, 0, 0, 0]
    EnvAttackTime := 10, EnvHoldTime := 0, EnvDecayTime := 400
    EnvSustainLevel := 100, EnvReleaseTime := 300, AmpControlMode := 2
    ContourStartLevel := 5, ContourDelayTime := 20, ContourRampTime := 600
    ContourHoldLevel := 40, Env2DecayTime := 500, Env2SustainLevel := 50
    LFO_Freq_x10 := 70, LFO_RampTime := 500, LFO_FM_Depth := 30
    LFO_AM_Depth := 0, MixerOutGain_x10 := 10, LimiterLevelPc := 0 },
  { PresetName := "Bass Overdrive"
    OscFreqMult := [0, 1, 4, 6, 7, 8]
    OscAmpldModSource := [0, 0, 0, 3, 0, 3]
    OscDetune := [0, 0, 0, 0, 0, 0]
    MixerInputStep := [14, 12, 8, 10, 0, 12]
    EnvAttackTime := 5, EnvHoldTime := 0, EnvDecayTime := 200
    EnvSustainLevel := 80, EnvReleaseTime := 200, AmpControlMode := 2
    ContourStartLevel := 5, ContourDelayTime := 20, ContourRampTime := 500
    ContourHoldLevel := 95, Env2DecayTime := 500, Env2SustainLevel := 50
    LFO_Freq_x10 := 50, LFO_RampTime := 500, LFO_FM_Depth := 20
    LFO_AM_Depth := 20, MixerOutGain_x10 := 33, LimiterLevelPc := 50 },
  { PresetName := "Bellbird  (JPM)"
    OscFreqMult := [9, 5, 8, 1, 8, 5]
    OscAmpldModSource := [7, 3, 3, 3, 7, 7]
    OscDetune := [0, 0, 0, 0, 0, 0]
    MixerInputStep := [4, 8, 2, 10, 14, 15]
    EnvAttackTime := 70, EnvHoldTime := 50, EnvDecayTime := 100
    EnvSustainLevel := 50, EnvReleaseTime := 700, AmpControlMode := 2
    ContourStartLevel := 0, ContourDelayTime := 200, ContourRampTime := 500
    ContourHoldLevel := 100, Env2DecayTime := 3000, Env2SustainLevel := 50
    LFO_Freq_x10 := 30, LFO_RampTime := 70, LFO_FM_Depth := 40
    LFO_AM_Depth := 35, MixerOutGain_x10 := 7, LimiterLevelPc := 0 },
  { PresetName := "Dull Steel Drum"
    OscFreqMult := [1, 4, 5, 6, 8, 10]
    OscAmpldModSource := [0, 0, 0, 1, 1, 1]
    OscDetune := [0, -14, 0, 23, 0, 0]
    MixerInputStep := [15, 10, 4, 11, 8, 6]
    EnvAttackTime := 10, EnvHoldTime := 50, EnvDecayTime := 500
    EnvSustainLevel := 0, EnvReleaseTime := 500, AmpControlMode := 2
    ContourStartLevel := 20, ContourDelayTime := 0, ContourRampTime := 50
    ContourHoldLevel := 80, Env2DecayTime := 200, Env2SustainLevel := 25
    LFO_Freq_x10 := 100, LFO_RampTime := 0, LFO_FM_Depth := 0
    LFO_AM_Depth := 0, MixerOutGain_x10 := 7, LimiterLevelPc := 0 },
  { PresetName := "Wobulator"
    OscFreqMult := [0, 1, 2, 3, 4, 5]
    OscAmpldModSource := [0, 0, 0, 7, 7, 7]
    OscDetune := [0, 0, 0, 0, 0, 0]
    MixerInputStep := [10, 0, 13, 14, 0, 14]
    EnvAttackTime := 30, EnvHoldTime := 300, EnvDecayTime := 1000
    EnvSustainLevel := 25, EnvReleaseTime := 1000, AmpControlMode := 2
    ContourStartLevel := 20, ContourDelayTime := 0, ContourRampTime := 200
    ContourHoldLevel := 80, Env2DecayTime := 200, Env2SustainLevel := 25
    LFO_Freq_x10 := 80, LFO_RampTime := 200, LFO_FM_Depth := 30
    LFO_AM_Depth := 25, MixerOutGain_x10 := 7, LimiterLevelPc := 0 },
  { PresetName := "Hollow Wood Drum"
    OscFreqMult := [0, 1, 2, 3, 4, 5]
    OscAmpldModSource := [6, 7, 6, 2, 0, 2]
    OscDetune := [0, 0, 0, 0, 0, 0]
    MixerInputStep := [5, 5, 4, 12, 8, 14]
    EnvAttackTime := 5, EnvHoldTime := 20, EnvDecayTime := 100
    EnvSustainLevel := 0, EnvReleaseTime := 300, AmpControlMode := 2
    ContourStartLevel := 20, ContourDelayTime := 0, ContourRampTime := 200
    ContourHoldLevel := 80, Env2DecayTime := 1500, Env2SustainLevel := 25
    LFO_Freq_x10 := 40, LFO_RampTime := 5, LFO_FM_Depth := 20
    LFO_AM_Depth := 20, MixerOutGain_x10 := 7, LimiterLevelPc := 0 },
  { PresetName := "Soft-attack Accordian"
    OscFreqMult := [1, 4, 5, 6, 7, 8]
    OscAmpldModSource := [0, 0, 1, 1, 1, 1]
    OscDetune := [0, 0, 0, 0, 0, 0]
    MixerInputStep := [14, 12, 11, 10, 9, 8]
    EnvAttackTime := 100, EnvHoldTime := 200, EnvDecayTime := 2000
    EnvSustainLevel := 10, EnvReleaseTime := 70, AmpControlMode := 2
    ContourStartLevel := 100, ContourDelayTime := 0, ContourRampTime := 300
    ContourHoldLevel := 30, Env2DecayTime := 500, Env2SustainLevel := 50
    LFO_Freq_x10 := 50, LFO_RampTime := 500, LFO_FM_Depth := 20
    LFO_AM_Depth := 20, MixerOutGain_x10 := 10, LimiterLevelPc := 0 },
  { PresetName := "Terrible Recorder"
    OscFreqMult := [1, 5, 7, 9, 11, 0]
    OscAmpldModSource := [0, 0, 5, 0, 5, 0]
    OscDetune := [0, 0, 0, 0, 0, 0]
    MixerInputStep := [14, 11, 13, 9, 13, 0]
    EnvAttackTime := 50, EnvHoldTime := 0, EnvDecayTime := 200
    EnvSustainLevel := 80, EnvReleaseTime := 200, AmpControlMode := 3
    ContourStartLevel := 5, ContourDelayTime := 20, ContourRampTime := 500
    ContourHoldLevel := 95, Env2DecayTime := 500, Env2SustainLevel := 50
    LFO_Freq_x10 := 50, LFO_RampTime := 500, LFO_FM_Depth := 20
    LFO_AM_Depth := 0, MixerOutGain_x10 := 7, LimiterLevelPc := 0 },
  { PresetName := "Psychedelic Oboe"
    OscFreqMult := [1, 3, 4, 5, 6, 9]
    OscAmpldModSource := [0, 0, 0, 0, 0, 0]
    OscDetune := [0, 0, 0, 0, 0, 0]
    MixerInputStep := [11, 0, 11, 12, 14, 0]
    EnvAttackTime := 30, EnvHoldTime := 0, EnvDecayTime := 200
    EnvSustainLevel := 80, EnvReleaseTime := 200, AmpControlMode := 3
    ContourStartLevel := 100, ContourDelayTime := 10, ContourRampTime := 1000
    ContourHoldLevel := 25, Env2DecayTime := 500, Env2SustainLevel := 50
    LFO_Freq_x10 := 50, LFO_RampTime := 500, LFO_FM_Depth := 20
    LFO_AM_Depth := 0, MixerOutGain_x10 := 7, LimiterLevelPc := 0 },
  { PresetName := "Stopped Flute"
    OscFreqMult := [1, 4, 5, 6, 7, 8]
    OscAmpldModSource := [0, 0, 0, 0, 0, 0]
    OscDetune := [0, 0, 0, 0, 0, 0]
    MixerInputStep := [15, 9, 6, 0, 0, 5]
    EnvAttackTime := 50, EnvHoldTime := 0, EnvDecayTime := 200
    EnvSustainLevel := 80, EnvReleaseTime := 200, AmpControlMode := 3
    ContourStartLevel := 0, ContourDelayTime := 50, ContourRampTime := 300
    ContourHoldLevel := 100, Env2DecayTime := 500, Env2SustainLevel := 50
    LFO_Freq_x10 := 50, LFO_RampTime := 500, LFO_FM_Depth := 15
    LFO_AM_Depth := 0, MixerOutGain_x10 := 10, LimiterLevelPc := 0 },
  { PresetName := "Spaced Out Pipe"
    OscFreqMult := [0, 3, 6, 0, 3, 6]
    OscAmpldModSource := [0, 0, 0, 0, 0, 0]
    OscDetune := [6, 5, 4, -6, -5, -4]
    MixerInputStep := [13, 10, 10, 13, 10, 10]
    EnvAttackTime := 30, EnvHoldTime := 0, EnvDecayTime := 200
    EnvSustainLevel := 80, EnvReleaseTime := 200, AmpControlMode := 3
    ContourStartLevel := 5, ContourDelayTime := 20, ContourRampTime := 500
    ContourHoldLevel := 95, Env2DecayTime := 500, Env2SustainLevel := 50
    LFO_Freq_x10 := 50, LFO_RampTime := 500, LFO_FM_Depth := 15
    LFO_AM_Depth := 0, MixerOutGain_x10 := 7, LimiterLevelPc := 0 },
  { PresetName := "Mellow Reed"
    OscFreqMult := [1, 5, 6, 7, 8, 0]
    OscAmpldModSource := [0, 0, 0, 0, 0, 0]
    OscDetune := [0, 0, 0, 0, 0, 0]
    MixerInputStep := [14, 9, 6, 12, 12, 0]
    EnvAttackTime := 30, EnvHoldTime := 0, EnvDecayTime := 200
    EnvSustainLevel := 80, EnvReleaseTime := 200, AmpControlMode := 3
    ContourStartLevel := 5, ContourDelayTime := 20, ContourRampTime := 500
    ContourHoldLevel := 95, Env2DecayTime := 500, Env2SustainLevel := 50
    LFO_Freq_x10 := 50, LFO_RampTime := 500, LFO_FM_Depth := 20
    LFO_AM_Depth := 0, MixerOutGain_x10 := 10, LimiterLevelPc := 0 },
  { PresetName := "Melody Organ #2"
    OscFreqMult := [1, 3, 4, 5, 8, 0]
    OscAmpldModSource := [0, 0, 0, 0, 3, 0]
    OscDetune := [0, 4, -4, 3, -2, 3]
    MixerInputStep := [13, 13, 10, 12, 14, 12]
    EnvAttackTime := 20, EnvHoldTime := 20, EnvDecayTime := 400
    EnvSustainLevel := 70, EnvReleaseTime := 300, AmpControlMode := 3
    ContourStartLevel := 5, ContourDelayTime := 20, ContourRampTime := 600
    ContourHoldLevel := 40, Env2DecayTime := 500, Env2SustainLevel := 50
    LFO_Freq_x10 := 70, LFO_RampTime := 500, LFO_FM_Depth := 30
    LFO_AM_Depth := 0, MixerOutGain_x10 := 7, LimiterLevelPc := 0 },
  { PresetName := "Reed Overdrive"
    OscFreqMult := [1, 4, 5, 7, 8, 9]
    OscAmpldModSource := [0, 5, 5, 5, 5, 5]
    OscDetune := [0, 0, 0, 0, 0, 0]
    MixerInputStep := [14, 12, 10, 10, 13, 13]
    EnvAttackTime := 70, EnvHoldTime := 0, EnvDecayTime := 200
    EnvSustainLevel := 80, EnvReleaseTime := 200, AmpControlMode := 3
    ContourStartLevel := 5, ContourDelayTime := 20, ContourRampTime := 500
    ContourHoldLevel := 95, Env2DecayTime := 500, Env2SustainLevel := 50
    LFO_Freq_x10 := 50, LFO_RampTime := 500, LFO_FM_Depth := 20
    LFO_AM_Depth := 0, MixerOutGain_x10 := 25, LimiterLevelPc := 50 },
  { PresetName := "Deep Saxophoney"
    OscFreqMult := [0, 1, 4, 5, 6, 7]
    OscAmpldModSource := [5, 0, 5, 0, 5, 5]
    OscDetune := [0, 0, 0, 0, 0, 0]
    MixerInputStep := [9, 10, 13, 0, 13, 12]
    EnvAttackTime := 70, EnvHoldTime := 0, EnvDecayTime := 200
    EnvSustainLevel := 80, EnvReleaseTime := 200, AmpControlMode := 3
    ContourStartLevel := 0, ContourDelayTime := 50, ContourRampTime := 300
    ContourHoldLevel := 100, Env2DecayTime := 500, Env2SustainLevel := 50
    LFO_Freq_x10 := 50, LFO_RampTime := 500, LFO_FM_Depth := 20
    LFO_AM_Depth := 0, MixerOutGain_x10 := 20, LimiterLevelPc := 50 }
]

/-- `GetNumberOfPresets()`: the number of records in the catalog
(`sizeof(g_PresetPatch) / sizeof(PatchParamTable_t)`). -/
def GetNumberOfPresets : Nat := g_PresetPatch.length

/-- Configuration parameters (`ConfigParams_t`) used by the voice module
(the CV-input and EEPROM fields, unused in the poly-voice build, are
omitted). -/
structure Config where
  audioAmpldCtrlMode : Nat
  vibratoCtrlMode : Nat
  pitchBendMode : Nat
  pitchBendRange : Nat
  reverbMixPc : Nat
  presetLastSelected : Nat
  fineTuningCents : Int
deriving DecidableEq

/-- Engine state read and written by `PresetSelect`, `SynthPrepare` and the
control-change dispatcher `ProcessControlChange`: configuration, the active
patch, the MIDI registered-parameter selector, the two static high-byte
latches of `ProcessControlChange`, the control levels, the note gate, the
LFO phase angle (24:8), and the integer reverb constants derived by
`SynthPrepare`.  (The reverb decay coefficient, a `float` `powf`
computation, is outside this integer model; no claim depends on its
value.) -/
structure EngineState where
  config : Config
  patch : Patch
  midiRegisParam : Nat
  expressionHi : Nat
  modulationHi : Nat
  expressionLevel : Int
  modulationLevel : Int
  keyVelocity : Int
  noteOn : Bool
  trigRelease1 : Bool
  trigRelease2 : Bool
  lfoPhaseAngle : Int
  rvbDelayLen : Nat
  rvbAtten : Nat
  rvbMix : Nat
  synthEnable : Bool
deriving DecidableEq

/-- `SynthExpression` from `m0_synth_engine.ino` (exponential curve option
disabled in this build): scales the 14-bit value to a 20-bit fraction and
caps it at 0.99. -/
def SynthExpression (data14 : Nat) : Int :=
  let level : Int := ((data14 * 64 : Nat) : Int)
  let levelMax : Int := (fixedOne * 99).tdiv 100
  if level > levelMax then levelMax else level

/-- `SynthModulation` from `m0_synth_engine.ino`: scales the 14-bit value
to a 20-bit fraction, saturating at `FIXED_MAX_LEVEL`. -/
def SynthModulation (data14 : Nat) : Int :=
  if data14 < 16 * 1024 then ((data14 * 64 : Nat) : Int) else FIXED_MAX_LEVEL

/-- `SynthPrepare` from `m0_synth_engine.ino` (SPI setup omitted): kills
the playing note, resets both envelope generators, mutes expression, sets
default modulation and velocity levels, and derives the integer reverb
constants (`m_RvbDelayLen = 0.04 * 32000`, `m_RvbAtten = (70 << 7)/100`,
`m_RvbMix = (ReverbMix_pc << 7)/100`). -/
def SynthPrepare (s : EngineState) : EngineState :=
  { s with noteOn := false, trigRelease1 := true, trigRelease2 := true,
           expressionLevel := 0,
           modulationLevel := (fixedOne * 50).tdiv 100,
           keyVelocity := (fixedOne * 80).tdiv 100,
           rvbDelayLen := 1280,
           rvbAtten := 70 * 128 / 100,
           rvbMix := s.config.reverbMixPc * 128 / 100,
           synthEnable := true }

/-- `PresetSelect` from `Sigma_6_Poly_voice.ino`: if the index is within
the catalog, copy the preset into the active patch, run `SynthPrepare`,
and record the selection; otherwise do nothing at all. -/
def PresetSelect (preset : Nat) (s : EngineState) : EngineState :=
  if preset < GetNumberOfPresets then
    let s1 := { s with patch := g_PresetPatch.getD preset s.patch }
    let s2 := SynthPrepare s1
    { s2 with config := { s2.config with presetLastSelected := preset } }
  else s

/-- Concrete engine state used by the frame-effect witnesses. -/
def sampleEngineState : EngineState :=
  { config := { audioAmpldCtrlMode := 2, vibratoCtrlMode := 0,
                pitchBendMode := 1, pitchBendRange := 2, reverbMixPc := 15,
                presetLastSelected := 1, fineTuningCents := 0 }
    patch := detunedTestPatch
    midiRegisParam := 0, expressionHi := 0, modulationHi := 0
    expressionLevel := 0, modulationLevel := 524288, keyVelocity := 838860
    noteOn := false, trigRelease1 := false, trigRelease2 := false
    lfoPhaseAngle := 0, rvbDelayLen := 1280, rvbAtten := 89, rvbMix := 19
    synthEnable := true }

/-- `ProcessControlChange` from `Sigma_6_Poly_voice.ino`: the full if/else
chain mapping a controller number and data byte onto configuration fields
(with per-field validity guards), patch fields (likewise), the expression /
modulation levels (with static high-byte latches), the LFO phase sync
(CC112), and All-Sound-Off (CC120/123 calling `SynthPrepare`).  An
unmatched controller number, or a guard that fails, changes nothing. -/
def ProcessControlChange (ccnum dataByte : Nat) (s : EngineState) : EngineState :=
  if ccnum = 2 ∨ ccnum = 7 ∨ ccnum = 11 then
    { s with expressionHi := dataByte,
             expressionLevel := SynthExpression (dataByte * 128) }
  else if ccnum = 34 ∨ ccnum = 39 ∨ ccnum = 43 then
    { s with expressionLevel := SynthExpression (s.expressionHi * 128 + dataByte) }
  else if ccnum = 1 then
    { s with modulationHi := dataByte,
             modulationLevel := SynthModulation (dataByte * 128) }
  else if ccnum = 33 then
    { s with modulationLevel := SynthModulation (s.modulationHi * 128 + dataByte) }
  else if ccnum = 100 then
    { s with midiRegisParam := dataByte }
  else if ccnum = 38 then
    let s1 := if s.midiRegisParam = 0 ∧ dataByte ≤ 12 then
        { s with config := { s.config with pitchBendRange := dataByte } }
      else s
    if s1.midiRegisParam = 1 then
      { s1 with config := { s1.config with fineTuningCents := (dataByte : Int) - 64 } }
    else s1
  else if ccnum = 86 then
    if dataByte < 4 then
      { s with config := { s.config with audioAmpldCtrlMode := dataByte } }
    else s
  else if ccnum = 87 then
    if dataByte < 4 then
      { s with config := { s.config with vibratoCtrlMode := dataByte } }
    else s
  else if ccnum = 88 then
    if dataByte < 4 then
      { s with config := { s.config with pitchBendMode := dataByte } }
    else s
  else if ccnum = 89 then
    if dataByte ≤ 100 then
      { s with config := { s.config with reverbMixPc := dataByte } }
    else s
  else if ccnum = 70 then
    if dataByte ≠ 0 then
      { s with patch := { s.patch with MixerOutGain_x10 := dataByte } }
    else s
  else if ccnum = 71 then
    if dataByte ≤ 95 then
      { s with patch := { s.patch with LimiterLevelPc := dataByte } }
    else s
  else if ccnum = 72 then
    if dataByte ≠ 0 ∧ dataByte ≤ 100 then
      { s with patch := { s.patch with EnvReleaseTime := dataByte * 100 } }
    else s
  else if ccnum = 73 then
    if dataByte ≠ 0 ∧ dataByte ≤ 100 then
      { s with patch := { s.patch with EnvAttackTime := dataByte * 10 } }
    else s
  else if ccnum = 74 then
    if dataByte ≤ 100 then
      { s with patch := { s.patch with EnvHoldTime := dataByte * 10 } }
    else s
  else if ccnum = 75 then
    if dataByte ≠ 0 ∧ dataByte ≤ 100 then
      { s with patch := { s.patch with EnvDecayTime := dataByte * 100 } }
    else s
  else if ccnum = 76 then
    if dataByte ≤ 100 then
      { s with patch := { s.patch with EnvSustainLevel := dataByte } }
    else s
  else if ccnum = 77 then
    if dataByte ≠ 0 ∧ dataByte ≤ 50 then
      { s with patch := { s.patch with LFO_Freq_x10 := dataByte * 10 } }
    else s
  else if ccnum = 78 then
    if dataByte ≤ 100 then
      { s with patch := { s.patch with LFO_RampTime := dataByte * 100 } }
    else s
  else if ccnum = 79 then
    if dataByte ≤ 120 then
      { s with patch := { s.patch with LFO_FM_Depth := dataByte * 5 } }
    else s
  else if ccnum = 80 then
    { s with patch := { s.patch with
        MixerInputStep := s.patch.MixerInputStep.set ((dataByte >>> 4) % 6)
          (dataByte &&& 0x0F) } }
  else if ccnum = 112 then
    { s with lfoPhaseAngle := 0 }
  else if ccnum = 120 ∨ ccnum = 123 then
    SynthPrepare s
  else s

/-- MIDI IN configuration read by the channel filter: the module channel
`g_MidiChannel` (1..16) and the mode `g_MidiMode` (`OMNI_ON_MONO` = 2 or
`OMNI_OFF_MONO` = 4). -/
structure MidiCfg where
  channel : Nat
  mode : Nat
deriving DecidableEq

/-- Events dispatched by `ProcessMidiMessage` (the synth calls it makes on
a completed, channel-accepted frame). -/
inductive MidiEvent where
  | noteOff (note : Nat)
  | noteOn (note : Nat) (velocity : Nat)
  | controlChange (ccnum data : Nat)
  | programChange (preset : Nat)
  | pitchBend (bipolar : Int)
  | sysEx (len : Nat)
deriving DecidableEq

/-- The `static` locals of `MidiInputService`: the message buffer
(`MIDI_MSG_MAX_LENGTH` = 16 cells), expected length, byte count, write
index, last status byte, and the completion flag.  The C `short` counters
only ever hold small non-negative values and are modelled as `Nat`. -/
structure MidiRxState where
  buf : List Nat
  bytesExpected : Nat
  byteCount : Nat
  index : Nat
  status : Nat
  complete : Bool
deriving DecidableEq

/-- `MIDI_GetMessageLength` from `Sigma_6_Poly_voice.ino`: frame length by
command class (2 for program-change / channel-pressure, 3 for note-on/off,
control-change, pitch-bend, `MIDI_MSG_MAX_LENGTH` for system-exclusive,
0 otherwise). -/
def MIDI_GetMessageLength (statusByte : Nat) : Nat :=
  let command := statusByte &&& 0xF0
  let length := 0
  let length := if command = 0xC0 ∨ command = 0xD0 then 2 else length
  let length := if command = 0x90 ∨ command = 0x80 ∨ command = 0xB0 ∨
      command = 0xE0 then 3 else length
  if statusByte = 0xF0 then 16 else length

/-- `ProcessMidiMessage` from `Sigma_6_Poly_voice.ino`, as the event it
dispatches: note-on with zero velocity becomes note-off; pitch bend
assembles a signed 14-bit value; unmatched commands dispatch nothing. -/
def ProcessMidiMessage (msg : List Nat) (msgLength : Nat) : Option MidiEvent :=
  let statusByte := msg.getD 0 0 &&& 0xF0
  let noteNumber := msg.getD 1 0
  let velocity := msg.getD 2 0
  if statusByte = 0x80 then some (MidiEvent.noteOff noteNumber)
  else if statusByte = 0x90 then
    if velocity = 0 then some (MidiEvent.noteOff noteNumber)
    else some (MidiEvent.noteOn noteNumber velocity)
  else if statusByte = 0xB0 then some (MidiEvent.controlChange noteNumber velocity)
  else if statusByte = 0xC0 then some (MidiEvent.programChange noteNumber)
  else if statusByte = 0xE0 then
    some (MidiEvent.pitchBend ((((velocity * 128 + noteNumber : Nat)) : Int) - 0x2000))
  else if statusByte = 0xF0 then some (MidiEvent.sysEx msgLength)
  else none

/-- One invocation of `MidiInputService` from `Sigma_6_Poly_voice.ino` for
one received byte: status-byte handling (EOX, new status ≤ 0xF0, real-time
bytes ignored), data-byte handling (running-status restart when a data
byte arrives with the previous message complete), then the
completion/channel-filter/dispatch stage.  Returns the new parser state
and the dispatched event, if any. -/
def MidiInputService (cfg : MidiCfg) (st : MidiRxState) (msgByte : Nat) :
    MidiRxState × Option MidiEvent :=
  let stg :=
    if msgByte &&& 0x80 ≠ 0 then
      if msgByte = 0xF7 then
        ({ st with complete := true,
                   buf := st.buf.set st.index 0xF7,
                   index := st.index + 1,
                   byteCount := st.byteCount + 1 }, true)
      else if msgByte ≤ 0xF0 then
        ({ st with status := msgByte, complete := false,
                   buf := st.buf.set 0 msgByte, index := 1, byteCount := 1,
                   bytesExpected := MIDI_GetMessageLength msgByte }, false)
      else (st, false)
    else
      let st1 :=
        if st.complete ∧ st.status ≠ 0xF0 then
          if st.byteCount = 0 then
            { st with index := 1, byteCount := 1,
                      bytesExpected := MIDI_GetMessageLength st.status }
          else st
        else st
      if st1.index < 16 then
        ({ st1 with buf := st1.buf.set st1.index msgByte,
                    index := st1.index + 1, byteCount := st1.byteCount + 1 },
         false)
      else (st1, false)
  let st2 := stg.1
  let gotSysEx := stg.2
  if (st2.byteCount ≠ 0 ∧ st2.byteCount = st2.bytesExpected) ∨ gotSysEx = true then
    let st3 := { st2 with complete := true }
    let msgChannel := (st3.buf.getD 0 0 &&& 0x0F) + 1
    if msgChannel = cfg.channel ∨ msgChannel = 16 ∨ cfg.mode = 2 ∨
        st3.status = 0xF0 then
      ({ st3 with bytesExpected := 0, byteCount := 0, index := 0 },
       ProcessMidiMessage st3.buf st3.byteCount)
    else (st3, none)
  else (st2, none)

/-- Parser state at power-up: all `static` locals zeroed. -/
def midiInitState : MidiRxState :=
  { buf := List.replicate 16 0, bytesExpected := 0, byteCount := 0,
    index := 0, status := 0, complete := false }

/-- Feed a byte list through the MIDI input service, collecting the
dispatched events in order. -/
def midiRun (cfg : MidiCfg) : MidiRxState → List Nat → MidiRxState × List MidiEvent
  | st, [] => (st, [])
  | st, b :: rest =>
    let r1 := MidiInputService cfg st b
    let r2 := midiRun cfg r1.1 rest
    (r2.1, match r1.2 with
           | some e => e :: r2.2
           | none => r2.2)

/-- C1: `Base2Exp(0)` returns exactly 1.0 (2^20 in Q12.20), `Base2Exp(+1.0)`
returns exactly 2.0, `Base2Exp(-1.0)` returns exactly 0.5, and for every
fixed-point input `x` with `x < -1.0` or `x > +1.0` the result is exactly
1.0 (unity multiplier). -/
theorem Base2Exp_boundary_and_domain :
    Base2Exp 0 = 1048576 ∧ Base2Exp 1048576 = 2097152 ∧
    Base2Exp (-1048576) = 524288 ∧
    ∀ x : Int, (x < -1048576 ∨ x > 1048576) → Base2Exp x = 1048576 := by
  refine ⟨by decide, by decide, by decide, fun x hx => ?_⟩
  unfold Base2Exp fixedOne
  rw [if_pos hx]
  decide

/-- Witness for C1: the out-of-domain clause applied at the concrete input
`+2.0` (= `2^21` in Q12.20). -/
theorem Base2Exp_boundary_and_domain_witness :
    ((2097152 : Int) < -1048576 ∨ (2097152 : Int) > 1048576) ∧
    Base2Exp 2097152 = 1048576 :=
  ⟨Or.inr (by decide),
   Base2Exp_boundary_and_domain.2.2.2 2097152 (Or.inr (by decide))⟩

/-- Counterexample for C5: at note C9 (120), oscillator 0 of
`detunedTestPatch` has pre-detune frequency 8372.02 x 1.333333 = 11162.68 Hz
< 12000 Hz, so `SynthNoteChange` does NOT mute it, yet its resulting
frequency in the claim sense (including the +600 cent detune factor
~ 1.414, ~ 15787 Hz) exceeds `MAX_OSC_FREQ_HZ` = 12000 Hz (and also
0.4 x 32000 = 12800 Hz): the claimed equivalence "muted iff the resulting
frequency (with detune and modulation factors) exceeds the ceiling" is
false at this input. -/
theorem oscMuted_ignores_detune_counterexample :
    (SynthNoteChange detunedTestPatch 120).oscMuted.getD 0 true = false ∧
    specResultingFreq_x1e10fx detunedTestPatch 120 0 > maxOscFreq_x1e10fx ∧
    ¬(((SynthNoteChange detunedTestPatch 120).oscMuted.getD 0 true = true) ↔
      specResultingFreq_x1e10fx detunedTestPatch 120 0 > maxOscFreq_x1e10fx) := by
  refine ⟨by decide, by decide, fun hiff => absurd (hiff.mpr (by decide)) (by decide)⟩

/-- C5 (amended): after `SynthNoteChange`, oscillator `osc` is marked muted
exactly when `g_NoteFrequency[note] * freqMultiplier` (detune and modulation
factors NOT included) exceeds `MAX_OSC_FREQ_HZ` = 12000 Hz (= 0.9375 x 0.4 x
SAMPLE_RATE_HZ); and at the next 5 ms modulation tick a muted oscillator's
mixer input level is forced to zero, excluding it from the mix. -/
theorem oscMuted_iff_freq_exceeds_ceiling (p : Patch) (noteNum osc : Nat)
    (hosc : osc < 6) :
    ((SynthNoteChange p noteNum).oscMuted.getD osc false = true ↔
      oscFreq_x1e10 p noteNum osc > maxOscFreq_x1e10) ∧
    ((SynthNoteChange p noteNum).oscMuted.getD osc false = true →
      (mixerLevelRefresh p (SynthNoteChange p noteNum).oscMuted).getD osc 1000 = 0) := by
  interval_cases osc <;>
    refine ⟨by simp [SynthNoteChange, List.range, List.range.loop], fun h => ?_⟩ <;>
    · simp only [mixerLevelRefresh, SynthNoteChange, List.range, List.range.loop] at h ⊢
      simp_all

/-- Witness for C5's amended theorem at oscillator 0 of `detunedTestPatch`,
note 120 (not muted there: the pre-detune frequency is below the ceiling,
consistently with both sides of the equivalence). -/
theorem oscMuted_iff_freq_exceeds_ceiling_witness :
    ((SynthNoteChange detunedTestPatch 120).oscMuted.getD 0 false = true ↔
      oscFreq_x1e10 detunedTestPatch 120 0 > maxOscFreq_x1e10) ∧
    ¬((SynthNoteChange detunedTestPatch 120).oscMuted.getD 0 false = true) :=
  ⟨(oscMuted_iff_freq_exceeds_ceiling detunedTestPatch 120 0 (by decide)).1,
   by decide⟩

/-- C9: for every byte argument (any 8-bit value, including values outside
12..120 and values with the high bit set), the note-number fold used by
`SynthNoteOn` / `SynthNoteChange` / `SynthNoteOff` lands in 12..120, so the
chromatic table `g_NoteFrequency` is always indexed within 0..108. -/
theorem foldNote_in_range :
    ∀ n : Nat, n < 256 →
      12 ≤ foldNote n ∧ foldNote n ≤ 120 ∧
      foldNote n - 12 < g_NoteFrequency_x1e4.length := by
  decide

/-- Witness for C9 at the byte 255 (high bit set, folds to 115). -/
theorem foldNote_in_range_witness :
    12 ≤ foldNote 255 ∧ foldNote 255 ≤ 120 ∧
    foldNote 255 - 12 < g_NoteFrequency_x1e4.length :=
  foldNote_in_range 255 (by decide)

/-- The fixed-point sustain level is non-negative. -/
theorem sustainLevelFx_nonneg (p : Patch) : 0 ≤ sustainLevelFx p := by
  have h : (0 : Int) ≤ fixedOne * (p.EnvSustainLevel : Int) := by
    unfold fixedOne; positivity
  unfold sustainLevelFx
  rw [Int.tdiv_eq_ediv h (by norm_num)]
  exact Int.ediv_nonneg h (by norm_num)

/-- With the sustain percentage in its documented range 0..100, the
fixed-point sustain level is at most 1.0. -/
theorem sustainLevelFx_le (p : Patch) (hS : p.EnvSustainLevel ≤ 100) :
    sustainLevelFx p ≤ fixedOne := by
  have h : (0 : Int) ≤ fixedOne * (p.EnvSustainLevel : Int) := by
    unfold fixedOne; positivity
  unfold sustainLevelFx
  rw [Int.tdiv_eq_ediv h (by norm_num)]
  have hle : fixedOne * (p.EnvSustainLevel : Int) ≤ fixedOne * 100 := by
    have : (p.EnvSustainLevel : Int) ≤ 100 := by exact_mod_cast hS
    unfold fixedOne; nlinarith
  calc fixedOne * (p.EnvSustainLevel : Int) / 100 ≤ fixedOne * 100 / 100 :=
        Int.ediv_le_ediv (by norm_num) hle
    _ = fixedOne := by unfold fixedOne; norm_num

/-- The attack-phase peak amplitude is non-negative. -/
theorem ampldMaximumFx_nonneg (p : Patch) : 0 ≤ ampldMaximumFx p := by
  unfold ampldMaximumFx
  split
  · exact sustainLevelFx_nonneg p
  · unfold FIXED_MAX_LEVEL fixedOne; norm_num

/-- With the sustain percentage in its documented range, the attack-phase
peak amplitude is at most 1.0. -/
theorem ampldMaximumFx_le (p : Patch) (hS : p.EnvSustainLevel ≤ 100) :
    ampldMaximumFx p ≤ fixedOne := by
  unfold ampldMaximumFx
  split
  · exact sustainLevelFx_le p hS
  · unfold FIXED_MAX_LEVEL; omega

/-- The attack step is non-negative. -/
theorem attackDeltaFx_nonneg (p : Patch) : 0 ≤ attackDeltaFx p := by
  unfold attackDeltaFx
  rw [Int.tdiv_eq_ediv (ampldMaximumFx_nonneg p) (Int.natCast_nonneg _)]
  exact Int.ediv_nonneg (ampldMaximumFx_nonneg p) (Int.natCast_nonneg _)

/-- `EnvAttackTime` attack steps never overshoot the peak amplitude. -/
theorem mul_attackDeltaFx_le (p : Patch) (hA : 1 ≤ p.EnvAttackTime) :
    (p.EnvAttackTime : Int) * attackDeltaFx p ≤ ampldMaximumFx p := by
  have hApos : (0 : Int) < (p.EnvAttackTime : Int) := by exact_mod_cast hA
  unfold attackDeltaFx
  rw [Int.tdiv_eq_ediv (ampldMaximumFx_nonneg p) (Int.natCast_nonneg _)]
  have h1 := Int.ediv_add_emod (ampldMaximumFx p) (p.EnvAttackTime : Int)
  have h2 := Int.emod_nonneg (ampldMaximumFx p) (by omega : (p.EnvAttackTime : Int) ≠ 0)
  omega

/-- During the attack phase (strictly before the attack time elapses) the
generator state is fully determined: segment ATTACK, timer = j, output
`j * ampldDelta`, triggers clear. -/
theorem env1AttackTrace_inv (p : Patch) :
    ∀ j, 1 ≤ j → j < p.EnvAttackTime →
      env1AttackTrace p j =
        ⟨EnvSeg.attack, j, sustainLevelFx p, 0, attackDeltaFx p,
         ampldMaximumFx p, (j : Int) * attackDeltaFx p, false, false⟩ := by
  intro j
  induction j with
  | zero => intro h; omega
  | succ n ih =>
    intro _ hlt
    rcases Nat.eq_zero_or_pos n with hn | hn
    · subst hn
      show AmpldEnvelopeGenerator p (env1AttackTrace p 0) = _
      simp only [env1AttackTrace, env1InitState, AmpldEnvelopeGenerator]
      simp only [if_true, Bool.false_eq_true, if_false]
      rw [if_neg (by omega : ¬ (0 + 1 ≥ p.EnvAttackTime))]
      rcases eq_or_lt_of_le (ampldMaximumFx_nonneg p) with hM | hM
      · have hd : attackDeltaFx p = 0 := by
          unfold attackDeltaFx
          rw [← hM, Int.zero_tdiv]
        rw [← hM]
        simp [hd]
      · rw [if_pos hM]
        simp
    · have hprev := ih (by omega) (by omega)
      show AmpldEnvelopeGenerator p (env1AttackTrace p n) = _
      rw [hprev]
      simp only [AmpldEnvelopeGenerator]
      simp only [Bool.false_eq_true, if_false]
      rw [if_neg (by omega : ¬ (n + 1 ≥ p.EnvAttackTime))]
      rcases eq_or_lt_of_le (attackDeltaFx_nonneg p) with hd | hd
      · rw [← hd]; simp
      · have hcast : ((n : Int) + 1) ≤ (p.EnvAttackTime : Int) := by
          exact_mod_cast Nat.le_of_lt hlt
        have h3 : ((n : Int) + 1) * attackDeltaFx p ≤
            (p.EnvAttackTime : Int) * attackDeltaFx p :=
          mul_le_mul_of_nonneg_right hcast hd.le
        have hb := mul_attackDeltaFx_le p (by omega)
        have hlt2 : (n : Int) * attackDeltaFx p < ampldMaximumFx p := by nlinarith
        rw [if_pos hlt2]
        simp only [Env1State.mk.injEq, and_true, true_and]
        push_cast
        ring

/-- When the attack time elapses, the output is set to the peak amplitude,
the timer resets, and the segment becomes SUSTAIN (hold time zero) or
PEAK_HOLD (hold time nonzero). -/
theorem env1AttackTrace_entry (p : Patch) (hA : 1 ≤ p.EnvAttackTime) :
    env1AttackTrace p p.EnvAttackTime =
      ⟨if p.EnvHoldTime = 0 then EnvSeg.sustain else EnvSeg.peakHold, 0,
       sustainLevelFx p, 0, attackDeltaFx p, ampldMaximumFx p,
       ampldMaximumFx p, false, false⟩ := by
  rcases eq_or_lt_of_le hA with hA1 | hA2
  · rw [← hA1]
    show AmpldEnvelopeGenerator p (env1AttackTrace p 0) = _
    simp only [env1AttackTrace, env1InitState, AmpldEnvelopeGenerator]
    simp only [if_true, Bool.false_eq_true, if_false]
    rw [if_pos (by omega : 0 + 1 ≥ p.EnvAttackTime)]
  · obtain ⟨m, hm⟩ : ∃ m, p.EnvAttackTime = m + 1 :=
      ⟨p.EnvAttackTime - 1, by omega⟩
    have hprev := env1AttackTrace_inv p m (by omega) (by omega)
    rw [hm]
    show AmpldEnvelopeGenerator p (env1AttackTrace p m) = _
    rw [hprev]
    simp only [AmpldEnvelopeGenerator]
    simp only [Bool.false_eq_true, if_false]
    rw [if_pos (by omega : m + 1 ≥ p.EnvAttackTime)]

/-- With both triggers clear, the SUSTAIN segment is a fixed point of the
generator. -/
theorem env1_sustain_absorb (p : Patch) (s : Env1State)
    (h : s.seg = EnvSeg.sustain) (h1 : s.trigAttack = false)
    (h2 : s.trigRelease = false) :
    AmpldEnvelopeGenerator p s = s := by
  simp [AmpldEnvelopeGenerator, h, h1, h2]

/-- From the attack-time tick onward (hold time zero, no release trigger),
the generator stays in the state it had when SUSTAIN was entered. -/
theorem env1AttackTrace_stable (p : Patch) (hA : 1 ≤ p.EnvAttackTime)
    (hH : p.EnvHoldTime = 0) :
    ∀ k, p.EnvAttackTime ≤ k →
      env1AttackTrace p k = env1AttackTrace p p.EnvAttackTime := by
  intro k
  induction k with
  | zero => intro h; omega
  | succ n ih =>
    intro hk
    rcases Nat.lt_or_ge n p.EnvAttackTime with hlt | hge
    · have : p.EnvAttackTime = n + 1 := by omega
      rw [this]
    · show AmpldEnvelopeGenerator p (env1AttackTrace p n) = _
      rw [ih hge, env1AttackTrace_entry p hA]
      exact env1_sustain_absorb p _ (by simp [hH]) rfl rfl

/-- C6: for every patch with `EnvHoldTime = 0` (and a positive attack time,
the attack handler dividing by it), once the attack trigger is processed
the generator never enters the PEAK_HOLD or DECAY segments, it is in
SUSTAIN from tick `EnvAttackTime` onward, and on entry to SUSTAIN the
output equals the generator's peak amplitude, which under `EnvHoldTime = 0`
is the configured sustain level. -/
theorem ampEnv_holdZero_skips_peakHold_decay (p : Patch)
    (hA : 1 ≤ p.EnvAttackTime) (hH : p.EnvHoldTime = 0) :
    (∀ k, (env1AttackTrace p k).seg ≠ EnvSeg.peakHold ∧
          (env1AttackTrace p k).seg ≠ EnvSeg.decay) ∧
    (∀ k, p.EnvAttackTime ≤ k → (env1AttackTrace p k).seg = EnvSeg.sustain) ∧
    (env1AttackTrace p p.EnvAttackTime).out = ampldMaximumFx p ∧
    ampldMaximumFx p = sustainLevelFx p := by
  have hsus : ∀ k, p.EnvAttackTime ≤ k →
      (env1AttackTrace p k).seg = EnvSeg.sustain := by
    intro k hk
    rw [env1AttackTrace_stable p hA hH k hk, env1AttackTrace_entry p hA]
    simp [hH]
  refine ⟨fun k => ?_, hsus, ?_, by unfold ampldMaximumFx; rw [if_pos hH]⟩
  · rcases Nat.eq_zero_or_pos k with hk | hk
    · subst hk
      simp [env1AttackTrace, env1InitState]
    · rcases Nat.lt_or_ge k p.EnvAttackTime with hlt | hge
      · rw [env1AttackTrace_inv p k hk hlt]
        simp
      · rw [hsus k hge]
        simp
  · rw [env1AttackTrace_entry p hA]

/-- Witness for C6: `detunedTestPatch` has hold time 0 and attack time 5;
at tick 5 the generator is in SUSTAIN with output equal to the peak
amplitude (= sustain level), and tick 3 is not PEAK_HOLD or DECAY. -/
theorem ampEnv_holdZero_skips_peakHold_decay_witness :
    (env1AttackTrace detunedTestPatch 5).seg = EnvSeg.sustain ∧
    (env1AttackTrace detunedTestPatch 5).out = ampldMaximumFx detunedTestPatch ∧
    (env1AttackTrace detunedTestPatch 3).seg ≠ EnvSeg.peakHold ∧
    (env1AttackTrace detunedTestPatch 3).seg ≠ EnvSeg.decay :=
  ⟨(ampEnv_holdZero_skips_peakHold_decay detunedTestPatch (by decide)
      (by decide)).2.1 5 (by decide),
   (ampEnv_holdZero_skips_peakHold_decay detunedTestPatch (by decide)
      (by decide)).2.2.1,
   ((ampEnv_holdZero_skips_peakHold_decay detunedTestPatch (by decide)
      (by decide)).1 3).1,
   ((ampEnv_holdZero_skips_peakHold_decay detunedTestPatch (by decide)
      (by decide)).1 3).2⟩

/-- Every invocation of the generator leaves both trigger flags clear: the
handlers consume them (an attack trigger also cancelling a pending
release), and no segment raises them. -/
theorem env1_step_trig_clear (p : Patch) (s : Env1State) :
    (AmpldEnvelopeGenerator p s).trigAttack = false ∧
    (AmpldEnvelopeGenerator p s).trigRelease = false := by
  rcases s with ⟨seg, pt, su, tc, ad, am, o, ta, tr⟩
  cases seg <;> cases ta <;> cases tr <;>
    simp [AmpldEnvelopeGenerator] <;> split_ifs <;> simp

/-- With both triggers clear, an IDLE invocation only zeroes the output. -/
theorem env1_idle_step (p : Patch) (s : Env1State)
    (hseg : s.seg = EnvSeg.idle) (hta : s.trigAttack = false)
    (htr : s.trigRelease = false) :
    AmpldEnvelopeGenerator p s = { s with out := 0 } := by
  simp [AmpldEnvelopeGenerator, hseg, hta, htr]

/-- Effect of one RELEASE invocation (triggers clear, non-negative output
and time constant): the timer advances, the segment force-terminates to
IDLE once the timer reaches twice the release time, the output never
increases and stays non-negative, and the time constant is unchanged. -/
theorem env1_release_step (p : Patch) (s : Env1State)
    (hseg : s.seg = EnvSeg.release) (hta : s.trigAttack = false)
    (htr : s.trigRelease = false) (hout : 0 ≤ s.out)
    (htc : 0 ≤ s.timeConstant) :
    (AmpldEnvelopeGenerator p s).seg =
      (if s.phaseTimer + 1 ≥ p.EnvReleaseTime * 2 then EnvSeg.idle
       else EnvSeg.release) ∧
    (AmpldEnvelopeGenerator p s).phaseTimer = s.phaseTimer + 1 ∧
    (AmpldEnvelopeGenerator p s).timeConstant = s.timeConstant ∧
    0 ≤ (AmpldEnvelopeGenerator p s).out ∧
    (AmpldEnvelopeGenerator p s).out ≤ s.out := by
  have hd0 : 0 ≤ s.out.tdiv s.timeConstant := by
    rw [Int.tdiv_eq_ediv hout htc]
    exact Int.ediv_nonneg hout htc
  simp only [AmpldEnvelopeGenerator, hseg, hta, htr, Bool.false_eq_true,
    if_false]
  simp only [true_and]
  constructor <;> split_ifs <;> simp_all [FIXED_MIN_LEVEL]

/-- One attack step never exceeds the peak amplitude. -/
theorem attackDeltaFx_le (p : Patch) : attackDeltaFx p ≤ ampldMaximumFx p := by
  unfold attackDeltaFx
  rw [Int.tdiv_eq_ediv (ampldMaximumFx_nonneg p) (Int.natCast_nonneg _)]
  exact Int.ediv_le_self _ (ampldMaximumFx_nonneg p)

/-- After the first invocation of the note-on/note-off scenario (the attack
tick), the triggers are clear and the output is within 0..1.0 (sustain
percentage in its documented range). -/
theorem noteOnOff_trace1 (p : Patch) (hS : p.EnvSustainLevel ≤ 100) :
    0 ≤ (env1NoteOnOffTrace p 1).out ∧
    (env1NoteOnOffTrace p 1).out ≤ fixedOne ∧
    (env1NoteOnOffTrace p 1).trigAttack = false ∧
    (env1NoteOnOffTrace p 1).trigRelease = false := by
  have hmax0 := ampldMaximumFx_nonneg p
  have hmax1 := ampldMaximumFx_le p hS
  have hdelta0 := attackDeltaFx_nonneg p
  have hdelta1 := attackDeltaFx_le p
  have heq : env1NoteOnOffTrace p 1 =
      AmpldEnvelopeGenerator p { env1InitState with trigAttack := true } := rfl
  rw [heq]
  simp only [AmpldEnvelopeGenerator, env1InitState]
  simp only [if_true, Bool.false_eq_true, if_false]
  split_ifs <;> simp_all <;> omega

/-- Raising the release trigger (attack trigger clear) puts the generator
into RELEASE with timer 1 and time constant `EnvReleaseTime / 5`, not
increasing the (non-negative) output. -/
theorem env1_release_trigger_step (p : Patch) (s : Env1State)
    (hta : s.trigAttack = false) (htr : s.trigRelease = true)
    (hout : 0 ≤ s.out) :
    (AmpldEnvelopeGenerator p s).seg =
      (if 1 ≥ p.EnvReleaseTime * 2 then EnvSeg.idle else EnvSeg.release) ∧
    (AmpldEnvelopeGenerator p s).phaseTimer = 1 ∧
    (AmpldEnvelopeGenerator p s).timeConstant =
      ((p.EnvReleaseTime / 5 : Nat) : Int) ∧
    0 ≤ (AmpldEnvelopeGenerator p s).out ∧
    (AmpldEnvelopeGenerator p s).out ≤ s.out := by
  have hd0 : 0 ≤ s.out.tdiv ((p.EnvReleaseTime / 5 : Nat) : Int) := by
    rw [Int.tdiv_eq_ediv hout (Int.natCast_nonneg _)]
    exact Int.ediv_nonneg hout (Int.natCast_nonneg _)
  simp only [AmpldEnvelopeGenerator, hta, htr, Bool.false_eq_true, if_false,
    if_true]
  simp only [true_and, zero_add]
  constructor <;> split_ifs <;> simp_all [FIXED_MIN_LEVEL]

/-- Shape of the note-on/note-off trace one tick after the release trigger
(trace index 2): segment RELEASE, timer 1, release time constant, triggers
clear, bounded output. -/
theorem noteOnOff_trace2 (p : Patch) (hR : 1 ≤ p.EnvReleaseTime)
    (hS : p.EnvSustainLevel ≤ 100) :
    (env1NoteOnOffTrace p 2).seg = EnvSeg.release ∧
    (env1NoteOnOffTrace p 2).phaseTimer = 1 ∧
    (env1NoteOnOffTrace p 2).timeConstant =
      ((p.EnvReleaseTime / 5 : Nat) : Int) ∧
    (env1NoteOnOffTrace p 2).trigAttack = false ∧
    (env1NoteOnOffTrace p 2).trigRelease = false ∧
    0 ≤ (env1NoteOnOffTrace p 2).out ∧
    (env1NoteOnOffTrace p 2).out ≤ fixedOne := by
  obtain ⟨h0, h1, hta, htr⟩ := noteOnOff_trace1 p hS
  have heq : env1NoteOnOffTrace p 2 =
      AmpldEnvelopeGenerator p
        { env1NoteOnOffTrace p 1 with trigRelease := true } := rfl
  have hstep := env1_release_trigger_step p
      { env1NoteOnOffTrace p 1 with trigRelease := true }
      (by simpa using hta) rfl (by simpa using h0)
  have htrig := env1_step_trig_clear p
      { env1NoteOnOffTrace p 1 with trigRelease := true }
  rw [heq]
  refine ⟨?_, hstep.2.1, hstep.2.2.1, htrig.1, htrig.2, hstep.2.2.2.1, ?_⟩
  · rw [hstep.1, if_neg (by omega)]
  · calc (AmpldEnvelopeGenerator p _).out ≤ _ := hstep.2.2.2.2
      _ ≤ fixedOne := by simpa using h1

/-- Release-phase invariant of the note-on/note-off scenario: for
`1 ≤ j ≤ 2 * EnvReleaseTime`, at trace index `1 + j` the timer equals `j`,
the segment is RELEASE until `j` reaches twice the release time and IDLE
there, the triggers stay clear, and the output stays within 0..1.0. -/
theorem noteOnOff_release_inv (p : Patch) (hR : 1 ≤ p.EnvReleaseTime)
    (hS : p.EnvSustainLevel ≤ 100) :
    ∀ j, 1 ≤ j → j ≤ p.EnvReleaseTime * 2 →
      (env1NoteOnOffTrace p (1 + j)).seg =
        (if j ≥ p.EnvReleaseTime * 2 then EnvSeg.idle else EnvSeg.release) ∧
      (env1NoteOnOffTrace p (1 + j)).phaseTimer = j ∧
      (env1NoteOnOffTrace p (1 + j)).timeConstant =
        ((p.EnvReleaseTime / 5 : Nat) : Int) ∧
      (env1NoteOnOffTrace p (1 + j)).trigAttack = false ∧
      (env1NoteOnOffTrace p (1 + j)).trigRelease = false ∧
      0 ≤ (env1NoteOnOffTrace p (1 + j)).out ∧
      (env1NoteOnOffTrace p (1 + j)).out ≤ fixedOne := by
  intro j
  induction j with
  | zero => intro h; omega
  | succ n ih =>
    intro _ hle
    rcases Nat.eq_zero_or_pos n with hn | hn
    · subst hn
      obtain ⟨hseg, hpt, htc, hta, htr, ho0, ho1⟩ := noteOnOff_trace2 p hR hS
      exact ⟨by rw [hseg, if_neg (by omega)], hpt, htc, hta, htr, ho0, ho1⟩
    · obtain ⟨hseg, hpt, htc, hta, htr, ho0, ho1⟩ := ih (by omega) (by omega)
      rw [if_neg (by omega)] at hseg
      have e1 : 1 + (n + 1) = (n - 1) + 3 := by omega
      have e2 : (n - 1) + 2 = 1 + n := by omega
      have heq : env1NoteOnOffTrace p (1 + (n + 1)) =
          AmpldEnvelopeGenerator p (env1NoteOnOffTrace p (1 + n)) := by
        rw [e1]
        show AmpldEnvelopeGenerator p (env1NoteOnOffTrace p ((n - 1) + 2)) = _
        rw [e2]
      have hstep := env1_release_step p (env1NoteOnOffTrace p (1 + n))
          hseg hta htr ho0 (by rw [htc]; exact Int.natCast_nonneg _)
      have htrig := env1_step_trig_clear p (env1NoteOnOffTrace p (1 + n))
      rw [heq]
      refine ⟨?_, ?_, ?_, htrig.1, htrig.2, hstep.2.2.2.1, ?_⟩
      · rw [hstep.1, hpt]
      · rw [hstep.2.1, hpt]
      · rw [hstep.2.2.1, htc]
      · exact le_trans hstep.2.2.2.2 ho1

/-- After the release phase force-terminates, the generator stays in IDLE
with triggers clear and output within 0..1.0. -/
theorem noteOnOff_idle_tail (p : Patch) (hR : 1 ≤ p.EnvReleaseTime)
    (hS : p.EnvSustainLevel ≤ 100) :
    ∀ m, (env1NoteOnOffTrace p (1 + p.EnvReleaseTime * 2 + m)).seg = EnvSeg.idle ∧
      (env1NoteOnOffTrace p (1 + p.EnvReleaseTime * 2 + m)).trigAttack = false ∧
      (env1NoteOnOffTrace p (1 + p.EnvReleaseTime * 2 + m)).trigRelease = false ∧
      0 ≤ (env1NoteOnOffTrace p (1 + p.EnvReleaseTime * 2 + m)).out ∧
      (env1NoteOnOffTrace p (1 + p.EnvReleaseTime * 2 + m)).out ≤ fixedOne := by
  intro m
  induction m with
  | zero =>
    obtain ⟨hseg, hpt, htc, hta, htr, ho0, ho1⟩ :=
      noteOnOff_release_inv p hR hS (p.EnvReleaseTime * 2) (by omega) le_rfl
    rw [if_pos le_rfl] at hseg
    exact ⟨hseg, hta, htr, ho0, ho1⟩
  | succ m ih =>
    obtain ⟨hseg, hta, htr, ho0, ho1⟩ := ih
    have e1 : 1 + p.EnvReleaseTime * 2 + (m + 1) =
        (p.EnvReleaseTime * 2 + m - 1) + 3 := by omega
    have e2 : (p.EnvReleaseTime * 2 + m - 1) + 2 =
        1 + p.EnvReleaseTime * 2 + m := by omega
    have heq : env1NoteOnOffTrace p (1 + p.EnvReleaseTime * 2 + (m + 1)) =
        AmpldEnvelopeGenerator p
          (env1NoteOnOffTrace p (1 + p.EnvReleaseTime * 2 + m)) := by
      rw [e1]
      show AmpldEnvelopeGenerator p
          (env1NoteOnOffTrace p ((p.EnvReleaseTime * 2 + m - 1) + 2)) = _
      rw [e2]
    rw [heq, env1_idle_step p _ hseg hta htr]
    refine ⟨hseg, hta, htr, le_rfl, ?_⟩
    unfold fixedOne
    norm_num

/-- C2: for every patch with attack, decay and release times of at least
1 ms and the sustain percentage in its documented range 0..100, triggering
an attack on the idle generator and a release at the next tick, then
stepping once per millisecond, the segment returns to IDLE within
`EnvAttackTime + EnvHoldTime + 2*EnvDecayTime + 2*EnvReleaseTime` ms of the
attack trigger, and the envelope output never exceeds full scale (1.0) at
any tick. -/
theorem ampEnv_noteOnOff_cycle (p : Patch) (hA : 1 ≤ p.EnvAttackTime)
    (hD : 1 ≤ p.EnvDecayTime) (hR : 1 ≤ p.EnvReleaseTime)
    (hS : p.EnvSustainLevel ≤ 100) :
    (∃ n, n ≤ p.EnvAttackTime + p.EnvHoldTime + 2 * p.EnvDecayTime +
        2 * p.EnvReleaseTime ∧
      (env1NoteOnOffTrace p n).seg = EnvSeg.idle) ∧
    (∀ k, (env1NoteOnOffTrace p k).out ≤ fixedOne) := by
  constructor
  · refine ⟨1 + p.EnvReleaseTime * 2, by omega, ?_⟩
    exact (noteOnOff_idle_tail p hR hS 0).1
  · intro k
    rcases Nat.eq_zero_or_pos k with hk | hk
    · subst hk
      show ({ env1InitState with trigAttack := true } : Env1State).out ≤ fixedOne
      unfold env1InitState fixedOne
      norm_num
    · rcases Nat.lt_or_ge k 2 with hk2 | hk2
      · have : k = 1 := by omega
        subst this
        exact (noteOnOff_trace1 p hS).2.1
      · rcases le_or_lt k (1 + p.EnvReleaseTime * 2) with hk3 | hk3
        · have e : k = 1 + (k - 1) := by omega
          rw [e]
          exact (noteOnOff_release_inv p hR hS (k - 1) (by omega)
            (by omega)).2.2.2.2.2.2
        · have e : k = 1 + p.EnvReleaseTime * 2 + (k - 1 - p.EnvReleaseTime * 2) := by
            omega
          rw [e]
          exact (noteOnOff_idle_tail p hR hS (k - 1 - p.EnvReleaseTime * 2)).2.2.2.2

/-- Witness for C2 at `detunedTestPatch` (attack 5 ms, hold 0, decay 200 ms,
release 200 ms, sustain 80 %). -/
theorem ampEnv_noteOnOff_cycle_witness :
    (∃ n, n ≤ detunedTestPatch.EnvAttackTime + detunedTestPatch.EnvHoldTime +
        2 * detunedTestPatch.EnvDecayTime + 2 * detunedTestPatch.EnvReleaseTime ∧
      (env1NoteOnOffTrace detunedTestPatch n).seg = EnvSeg.idle) ∧
    (∀ k, (env1NoteOnOffTrace detunedTestPatch k).out ≤ fixedOne) :=
  ampEnv_noteOnOff_cycle detunedTestPatch (by decide) (by decide) (by decide)
    (by decide)

/-- Effect of a single update under the invariant bounds. -/
theorem oscPhaseUpdate_eq_emod (step angle : Int) (hs0 : 0 ≤ step)
    (hs1 : step < (WAVE_TABLE_SIZE : Int) * 65536) (ha0 : 0 ≤ angle)
    (ha1 : angle < (WAVE_TABLE_SIZE : Int) * 65536) :
    oscPhaseUpdate step angle =
      (angle + step) % ((WAVE_TABLE_SIZE : Int) * 65536) := by
  unfold oscPhaseUpdate WAVE_TABLE_SIZE at *
  push_cast at *
  split_ifs <;> omega

/-- C8: for a phase step that is non-negative and below the table length
(16:16 fixed point), iterating the sample-rate phase update any number of
times from a phase in `[0, tableLength)` keeps the accumulator non-negative
and strictly below the table length, and after `n` steps it equals
`(initialPhase + n*step) mod tableLength`. -/
theorem oscPhase_iter_invariant (step : Int) (hs0 : 0 ≤ step)
    (hs1 : step < (WAVE_TABLE_SIZE : Int) * 65536) :
    ∀ (n : Nat) (angle : Int), 0 ≤ angle →
      angle < (WAVE_TABLE_SIZE : Int) * 65536 →
      0 ≤ oscPhaseIter step n angle ∧
      oscPhaseIter step n angle < (WAVE_TABLE_SIZE : Int) * 65536 ∧
      oscPhaseIter step n angle =
        (angle + n * step) % ((WAVE_TABLE_SIZE : Int) * 65536) := by
  intro n
  induction n with
  | zero =>
    intro angle ha0 ha1
    refine ⟨ha0, ha1, ?_⟩
    show angle = (angle + 0 * step) % _
    rw [zero_mul, add_zero, Int.emod_eq_of_lt ha0 ha1]
  | succ m ih =>
    intro angle ha0 ha1
    have hup := oscPhaseUpdate_eq_emod step angle hs0 hs1 ha0 ha1
    have h0' : 0 ≤ oscPhaseUpdate step angle := by
      unfold oscPhaseUpdate WAVE_TABLE_SIZE at *
      push_cast at *
      split_ifs <;> omega
    have h1' : oscPhaseUpdate step angle < (WAVE_TABLE_SIZE : Int) * 65536 := by
      unfold oscPhaseUpdate WAVE_TABLE_SIZE at *
      push_cast at *
      split_ifs <;> omega
    obtain ⟨g0, g1, g2⟩ := ih (oscPhaseUpdate step angle) h0' h1'
    refine ⟨g0, g1, ?_⟩
    show oscPhaseIter step m (oscPhaseUpdate step angle) = _
    rw [g2, hup]
    have hexp : (((m : Nat) + 1 : Nat) : Int) * step = (m : Int) * step + step := by
      push_cast
      ring
    rw [hexp]
    unfold WAVE_TABLE_SIZE
    push_cast
    omega

/-- Witness for C8 at step 65536 (one table sample per tick), phase 0,
after 3 updates. -/
theorem oscPhase_iter_invariant_witness :
    0 ≤ oscPhaseIter 65536 3 0 ∧
    oscPhaseIter 65536 3 0 < (WAVE_TABLE_SIZE : Int) * 65536 ∧
    oscPhaseIter 65536 3 0 =
      (0 + 3 * 65536) % ((WAVE_TABLE_SIZE : Int) * 65536) := by
  have h := oscPhase_iter_invariant 65536 (by decide)
    (by unfold WAVE_TABLE_SIZE; decide) 3 0 (by decide)
    (by unfold WAVE_TABLE_SIZE; decide)
  simpa using h

/-- C10: `SynthNoteOff(n)` raises the release/reset triggers and clears the
note-on flag exactly when the folded note number equals the playing note;
for every other note number the state is left entirely unchanged. -/
theorem synthNoteOff_frame (noteNum : Nat) (s : NoteGateState) :
    (foldNote noteNum = s.notePlaying →
      SynthNoteOff noteNum s =
        { s with trigRelease1 := true, trigRelease2 := true,
                 trigReset := true, noteOn := false }) ∧
    (foldNote noteNum ≠ s.notePlaying → SynthNoteOff noteNum s = s) := by
  constructor <;> intro h <;> simp [SynthNoteOff, SynthTriggerRelease, h]

/-- Witness for C10: note 60 against a voice playing note 60 (matching:
triggers raised) — both implications applied at concrete states. -/
theorem synthNoteOff_frame_witness :
    SynthNoteOff 60 ⟨false, false, false, true, 60⟩ =
      ⟨true, true, true, false, 60⟩ ∧
    SynthNoteOff 61 ⟨false, false, false, true, 60⟩ =
      ⟨false, false, false, true, 60⟩ :=
  ⟨(synthNoteOff_frame 60 ⟨false, false, false, true, 60⟩).1 (by decide),
   (synthNoteOff_frame 61 ⟨false, false, false, true, 60⟩).2 (by decide)⟩

/-- C4: the catalog holds 32 presets, and for every preset index at or
beyond the catalog size, `PresetSelect` (as dispatched from a Program
Change message) leaves the active patch record and all other engine state
entirely unchanged. -/
theorem presetSelect_out_of_range (preset : Nat) (s : EngineState)
    (h : GetNumberOfPresets ≤ preset) :
    PresetSelect preset s = s ∧ GetNumberOfPresets = 32 := by
  refine ⟨?_, by decide⟩
  unfold PresetSelect
  rw [if_neg (by omega)]

/-- Witness for C4 at preset index 32 (first out-of-range index). -/
theorem presetSelect_out_of_range_witness :
    PresetSelect 32 sampleEngineState = sampleEngineState ∧
    GetNumberOfPresets = 32 :=
  presetSelect_out_of_range 32 sampleEngineState (by decide)

/-- C7: for every Control-Change message carrying a data value that is
out of range for its target field — mode CCs 86/87/88 with data ≥ 4,
reverb-mix CC89 with data > 100, pitch-bend-range data-entry CC38 with
data > 12, mixer-gain CC70 with data 0, limiter-level CC71 with data > 95,
envelope-time CCs 72/73/75 with data 0 or > 100, hold/sustain/ramp CCs
74/76/78 with data > 100, LFO-frequency CC77 with data 0 or > 50, and
FM-depth CC79 with data > 120 — the dispatcher leaves the targeted field
and every other part of the engine state unchanged. -/
theorem controlChange_drops_out_of_range (s : EngineState) (d : Nat) :
    (3 < d → ProcessControlChange 86 d s = s) ∧
    (3 < d → ProcessControlChange 87 d s = s) ∧
    (3 < d → ProcessControlChange 88 d s = s) ∧
    (100 < d → ProcessControlChange 89 d s = s) ∧
    (s.midiRegisParam = 0 → 12 < d → ProcessControlChange 38 d s = s) ∧
    (ProcessControlChange 70 0 s = s) ∧
    (95 < d → ProcessControlChange 71 d s = s) ∧
    ((d = 0 ∨ 100 < d) → ProcessControlChange 72 d s = s) ∧
    ((d = 0 ∨ 100 < d) → ProcessControlChange 73 d s = s) ∧
    (100 < d → ProcessControlChange 74 d s = s) ∧
    ((d = 0 ∨ 100 < d) → ProcessControlChange 75 d s = s) ∧
    (100 < d → ProcessControlChange 76 d s = s) ∧
    ((d = 0 ∨ 50 < d) → ProcessControlChange 77 d s = s) ∧
    (100 < d → ProcessControlChange 78 d s = s) ∧
    (120 < d → ProcessControlChange 79 d s = s) := by
  refine ⟨fun h => ?_, fun h => ?_, fun h => ?_, fun h => ?_,
    fun h0 h => ?_, ?_, fun h => ?_, fun h => ?_, fun h => ?_, fun h => ?_,
    fun h => ?_, fun h => ?_, fun h => ?_, fun h => ?_, fun h => ?_⟩
  · unfold ProcessControlChange; norm_num; intros; exact (by omega : False).elim
  · unfold ProcessControlChange; norm_num; intros; exact (by omega : False).elim
  · unfold ProcessControlChange; norm_num; intros; exact (by omega : False).elim
  · unfold ProcessControlChange; norm_num; intros; exact (by omega : False).elim
  · have h1 : ¬ (s.midiRegisParam = 0 ∧ d ≤ 12) := by omega
    have h2 : ¬ (s.midiRegisParam = 1) := by omega
    simp [ProcessControlChange, h1, h2]
  · unfold ProcessControlChange; norm_num
  · unfold ProcessControlChange; norm_num; intros; exact (by omega : False).elim
  · unfold ProcessControlChange; norm_num; intros; exact (by omega : False).elim
  · unfold ProcessControlChange; norm_num; intros; exact (by omega : False).elim
  · unfold ProcessControlChange; norm_num; intros; exact (by omega : False).elim
  · unfold ProcessControlChange; norm_num; intros; exact (by omega : False).elim
  · unfold ProcessControlChange; norm_num; intros; exact (by omega : False).elim
  · unfold ProcessControlChange; norm_num; intros; exact (by omega : False).elim
  · unfold ProcessControlChange; norm_num; intros; exact (by omega : False).elim
  · unfold ProcessControlChange; norm_num; intros; exact (by omega : False).elim

/-- Witness for C7: out-of-range writes at the concrete state
`sampleEngineState` — CC89 with 101, CC38 (registered parameter 0) with
101, CC71 with 101, CC72 with 101 — all leave the state unchanged. -/
theorem controlChange_drops_out_of_range_witness :
    ProcessControlChange 89 101 sampleEngineState = sampleEngineState ∧
    ProcessControlChange 38 101 sampleEngineState = sampleEngineState ∧
    ProcessControlChange 71 101 sampleEngineState = sampleEngineState ∧
    ProcessControlChange 72 101 sampleEngineState = sampleEngineState :=
  ⟨(controlChange_drops_out_of_range sampleEngineState 101).2.2.2.1 (by decide),
   (controlChange_drops_out_of_range sampleEngineState 101).2.2.2.2.1 rfl (by decide),
   (controlChange_drops_out_of_range sampleEngineState 101).2.2.2.2.2.2.1 (by decide),
   (controlChange_drops_out_of_range sampleEngineState 101).2.2.2.2.2.2.2.1
     (Or.inr (by decide))⟩

/-- Data bytes (high bit clear) fail the status-byte test. -/
theorem dataByte_and128 : ∀ b < 128, b &&& 128 = 0 := by decide

/-- Note-On status bytes (0x90 | channel) pass the status-byte test. -/
theorem noteOnStatus_and128 : ∀ cb < 16, (144 + cb) &&& 128 = 128 := by decide

/-- The command nibble of a Note-On status byte is 0x90. -/
theorem noteOnStatus_and240 : ∀ cb < 16, (144 + cb) &&& 240 = 144 := by decide

/-- The channel nibble of a Note-On status byte. -/
theorem noteOnStatus_and15 : ∀ cb < 16, (144 + cb) &&& 15 = cb := by decide

/-- C3: for a byte stream of one Note-On status byte on an accepted channel
(equal to the configured channel, or the broadcast channel 16, or the
device in omni mode) followed by three two-byte data pairs with no repeated
status byte (running status), feeding the bytes one at a time into
`MidiInputService` dispatches exactly three Note-On events carrying the
note and velocity of the corresponding pairs. -/
theorem midi_runningStatus_threeNoteOn (cfg : MidiCfg) (cb n1 v1 n2 v2 n3 v3 : Nat)
    (hcb : cb < 16) (hn1 : n1 < 128) (hv1 : v1 < 128) (hv1n : v1 ≠ 0)
    (hn2 : n2 < 128) (hv2 : v2 < 128) (hv2n : v2 ≠ 0)
    (hn3 : n3 < 128) (hv3 : v3 < 128) (hv3n : v3 ≠ 0)
    (hacc : cb + 1 = cfg.channel ∨ cb + 1 = 16 ∨ cfg.mode = 2) :
    (midiRun cfg midiInitState [144 + cb, n1, v1, n2, v2, n3, v3]).2 =
      [MidiEvent.noteOn n1 v1, MidiEvent.noteOn n2 v2, MidiEvent.noteOn n3 v3] := by
  have h247 : 144 + cb ≠ 247 := by omega
  have h240le : 144 + cb ≤ 240 := by omega
  have h240 : ¬ (144 + cb = 240) := by omega
  have hacc2 : cb + 1 = cfg.channel ∨ cb = 15 ∨ cfg.mode = 2 := by omega
  simp [midiRun, MidiInputService, MIDI_GetMessageLength, ProcessMidiMessage,
    midiInitState, List.replicate, h247, h240le, h240, hacc2, hv1n, hv2n, hv3n,
    dataByte_and128 n1 hn1, dataByte_and128 v1 hv1, dataByte_and128 n2 hn2,
    dataByte_and128 v2 hv2, dataByte_and128 n3 hn3, dataByte_and128 v3 hv3,
    noteOnStatus_and128 cb hcb, noteOnStatus_and240 cb hcb,
    noteOnStatus_and15 cb hcb]

/-- Witness for C3: Note-On on channel 1 (configured channel 1, omni off)
followed by the pairs (60,100), (61,101), (62,102) under running status. -/
theorem midi_runningStatus_threeNoteOn_witness :
    (midiRun ⟨1, 4⟩ midiInitState [144, 60, 100, 61, 101, 62, 102]).2 =
      [MidiEvent.noteOn 60 100, MidiEvent.noteOn 61 101,
       MidiEvent.noteOn 62 102] := by
  have h := midi_runningStatus_threeNoteOn ⟨1, 4⟩ 0 60 100 61 101 62 102
    (by decide) (by decide) (by decide) (by decide) (by decide) (by decide)
    (by decide) (by decide) (by decide) (by decide) (Or.inl (by decide))
  simpa using h
